import Mathlib

/-!
Verification of the extraction-and-reconciliation core of the AASB
financial-statement generator.

The development shallowly embeds three source modules:

* `validator.py` (`FinancialStatementValidator.validate_all` and the
  individual check methods) — section "Validator";
* `.history/excel_processor_20251124025654.py` (`ExcelProcessor.extract_pl_data`,
  `extract_bs_data`, `_extract_numeric_value`) — section "Excel processor";
* `pdf_parser.py` (`PDFParser.extract_income_statement_data` and
  `_extract_currency_value`) — section "PDF parser".

Modelling conventions:

* Python floats are modelled as rational numbers (`ℚ`); IEEE rounding noise
  is outside the model, exactly as the spec treats monetary values.
* Python dictionaries with `d.get(key, 0)` access are modelled as structures
  of `Option ℚ` fields read through `Option.getD 0`, so a missing key and an
  explicit value are distinguished (absence vs zero).
* A validation issue is modelled structurally: one constructor per check,
  whose arguments are exactly the data interpolated into the source message
  string.  "The message states X" is rendered as "the issue carries field X".
* The AI augmentation adapter (`ai_service.AIService`) is an external network
  collaborator; its behaviour at a call site is modelled as an explicit
  outcome value (raise, or a returned verdict) supplied as a parameter.
-/

/-! ## Generic string helpers (models of Python string operations) -/

/-- Model of Python `str.lower` for the ASCII letters (the only case-folding
the sources rely on: all keywords are ASCII). -/
def lowerChar (c : Char) : Char :=
  if 'A' ≤ c ∧ c ≤ 'Z' then Char.ofNat (c.toNat + 32) else c

/-- Lower-case a character list. -/
def lowerChars (s : List Char) : List Char := s.map lowerChar

/-- Does the first list start with the second? -/
def charsStartWith : List Char → List Char → Bool
  | _, [] => true
  | [], _ :: _ => false
  | a :: as, b :: bs => a = b && charsStartWith as bs

/-- Model of the Python substring test `needle in hay` on character lists. -/
def charsContain : List Char → List Char → Bool
  | [], needle => needle.isEmpty
  | a :: as, needle => charsStartWith (a :: as) needle || charsContain as needle

/-- Substring test on strings, model of Python `needle in hay`
(case sensitive). -/
def strContains (hay needle : String) : Bool :=
  charsContain hay.data needle.data

/-- Case-insensitive substring test: model of
`pandas.Series.str.contains(needle, case=False)` and of
`re.search(literal, hay, re.IGNORECASE)` for a literal pattern.
The needle is supplied already lower-case. -/
def strContainsCI (hay needle : String) : Bool :=
  charsContain (lowerChars hay.data) needle.data

/-! ## Validator (`validator.py`)

`FinancialStatementValidator` keeps three accumulator lists on the instance
(`self.errors`, `self.warnings`, `self.queries`, initialised in `__init__`
lines 28-30).  `validate_all` (lines 45-92) re-assigns all three to `[]` on
entry and then runs the fixed battery of checks, each of which appends zero
or one issue (the AI note check can append several warnings).  The
`errors` list holds the Fatal issues, `queries` the human-confirmation
issues and `warnings` the informational ones. -/

/-- A validation issue, one constructor per issue produced in
`validator.py`, carrying exactly the data interpolated into the
corresponding message string. -/
inductive Issue where
  /-- Lines 108-115: balance mismatch Fatal; the message interpolates
  `assets`, `liabilities_equity` and `difference = abs(assets - liabilities_equity)`. -/
  | balanceMismatch (assets liabilities_equity difference : ℚ)
  /-- Lines 132-141: retained-earnings mismatch Fatal; the message
  interpolates `prior_re`, `net_profit_loss`, `expected_re`, `current_re`
  and `difference = abs(current_re - expected_re)`. -/
  | reMismatch (prior_re net_profit_loss expected_re current_re difference : ℚ)
  /-- Lines 152-157: tax-consolidation query with the head-entity name. -/
  | taxConsolidation (head_entity : String)
  /-- Lines 166-172: contingent-liability query with the first 200
  characters of the prior-year text. -/
  | contingentLiability (prior_text_head : String)
  /-- Lines 187-195: director-roster query with expected, found, missing
  and extra name lists. -/
  | directorNames (expected found missing extra : List String)
  /-- Lines 208-215: compilation-signatory query. -/
  | compilerSignatory (expected found_name found_title : String)
  /-- Lines 226-230: zero-cash warning. -/
  | cashZero
  /-- Lines 255-260: zero-income-tax warning. -/
  | deferredTaxZero
  /-- Lines 301-304: AI balance-sheet validation error, carrying the
  message and the optional `issues` list of the analysis dict. -/
  | aiBalance (message : String) (issues : Option (List String))
  /-- Line 308: AI recommendation warning. -/
  | aiRecommendation (text : String)
  /-- Lines 327-329: AI note-disclosure query with the missing items. -/
  | aiNotesMissing (missing : List String)
  /-- Line 333: AI inadequate-note warning. -/
  | aiNoteDetail (note : String)
deriving DecidableEq

/-- Instance state of `FinancialStatementValidator`: the three accumulator
lists set up in `__init__` and re-assigned at the top of `validate_all`. -/
structure VState where
  errors : List Issue
  warnings : List Issue
  queries : List Issue
deriving DecidableEq

/-- The balance-sheet dict as read by the validator: `bs_data.get(key, 0)`
and the nested `bs_data.get('equity', {}).get('retained_earnings', 0)` /
`bs_data.get('current_assets', {}).get('cash', 0)` accesses.  A `none`
field models a missing key (at either nesting level). -/
structure BSInput where
  total_assets : Option ℚ
  total_liabilities : Option ℚ
  total_equity : Option ℚ
  equity_retained_earnings : Option ℚ
  current_assets_cash : Option ℚ
deriving DecidableEq

/-- The profit-and-loss dict as read by the validator. -/
structure PLInput where
  net_profit_loss : Option ℚ
  income_tax_expense : Option ℚ
deriving DecidableEq

/-- A director or compiler record: a Python dict read through
`d.get('name', '')` / `d.get('title', '')`. -/
structure Person where
  name : Option String
  title : Option String
deriving DecidableEq

/-- The `prior_year_data` argument of `validate_all`; no check reads it,
it is only threaded through the signature. -/
abbrev PriorYearData := List (String × ℚ)

/-- Outcome of the external call
`ai_service.validate_balance_sheet_relationships(bs_data, pl_data)`:
either an exception (caught at lines 310-311) or a returned triple
`(is_valid, message, analysis)`, with the analysis dict modelled by its
two optionally-present keys `issues` and `recommendations`. -/
inductive AIBSOutcome where
  | raises
  | result (is_valid : Bool) (message : String)
      (issues : Option (List String)) (recommendations : Option (List String))
deriving DecidableEq

/-- Outcome of the external call
`ai_service.validate_note_disclosures(notes_data, bs_data, pl_data)`:
either an exception (caught at lines 336-337) or a returned triple
`(is_complete, missing, analysis)` with the optionally-present
`inadequate_notes` key of the analysis dict. -/
inductive AINotesOutcome where
  | raises
  | result (is_complete : Bool) (missing : List String)
      (inadequate_notes : Option (List String))
deriving DecidableEq

/-- The AI augmentation adapter as seen from `validate_all`: the outcomes
of its two possible calls during one invocation.  `Option AIService = none`
models `use_ai` being false or `ai_service` being `None` (lines 31-43, 85). -/
structure AIService where
  bsOutcome : AIBSOutcome
  notesOutcome : AINotesOutcome
deriving DecidableEq

/-- Source `_validate_balance_sheet_balances` (lines 94-115): appends one
Fatal issue when `abs(assets - (liabilities + equity)) >= 1`. -/
def validate_balance_sheet_balances (bs_data : BSInput) : List Issue :=
  let assets := bs_data.total_assets.getD 0
  let liabilities := bs_data.total_liabilities.getD 0
  let equity := bs_data.total_equity.getD 0
  let liabilities_equity := liabilities + equity
  let difference := |assets - liabilities_equity|
  if 1 ≤ difference then
    [Issue.balanceMismatch assets liabilities_equity difference]
  else []

/-- Source `_validate_retained_earnings_rollforward` (lines 117-141):
appends one Fatal issue when `abs(current_re - (prior_re + net_profit_loss)) >= 1`. -/
def validate_retained_earnings_rollforward (bs_data : BSInput) (pl_data : PLInput)
    (prior_re : ℚ) : List Issue :=
  let current_re := bs_data.equity_retained_earnings.getD 0
  let net_profit_loss := pl_data.net_profit_loss.getD 0
  let expected_re := prior_re + net_profit_loss
  let difference := |current_re - expected_re|
  if 1 ≤ difference then
    [Issue.reMismatch prior_re net_profit_loss expected_re current_re difference]
  else []

/-- Source `_validate_tax_consolidation_disclosure` (lines 143-157):
`if tax_consolidation_entity:` — Python truthiness, so `None` and the
empty string both skip the query. -/
def validate_tax_consolidation_disclosure (tax_consolidation_entity : Option String) :
    List Issue :=
  match tax_consolidation_entity with
  | none => []
  | some t => if t = "" then [] else [Issue.taxConsolidation t]

/-- Source `_validate_contingent_liability_consistency` (lines 159-172):
truthiness test, then the query carries `contingent_liability_text[:200]`. -/
def validate_contingent_liability_consistency (contingent_liability_text : Option String) :
    List Issue :=
  match contingent_liability_text with
  | none => []
  | some t => if t = "" then [] else [Issue.contingentLiability (t.take 200)]

/-- The expected director roster hard-coded at line 180. -/
def expected_directors : List String :=
  ["Matthew Warnken", "Gary Wyatt", "Julian Turecek"]

/-- Source `_validate_director_names` (lines 174-195). -/
def validate_director_names (directors : List Person) : List Issue :=
  let current_names := directors.map (fun d => d.name.getD "")
  let missing := expected_directors.filter (fun n => !(current_names.contains n))
  let extra := current_names.filter (fun n => !(expected_directors.contains n))
  if missing.isEmpty && extra.isEmpty then []
  else [Issue.directorNames expected_directors current_names missing extra]

/-- Source `_validate_compilation_signatory` (lines 197-215):
`if expected_compiler not in compiler_name` is a substring test. -/
def validate_compilation_signatory (compiler : Person) : List Issue :=
  let compiler_name := compiler.name.getD ""
  let compiler_title := compiler.title.getD ""
  if strContains compiler_name "Allan Tuback" then []
  else [Issue.compilerSignatory "Allan Tuback" compiler_name compiler_title]

/-- Source `_validate_cash_accounts` (lines 217-230). -/
def validate_cash_accounts (bs_data : BSInput) : List Issue :=
  if bs_data.current_assets_cash.getD 0 = 0 then [Issue.cashZero] else []

/-- Source `_validate_related_party_loans` (lines 232-243): the body is a
placeholder `pass`, so no issue is ever produced. -/
def validate_related_party_loans : List Issue := []

/-- Source `_validate_deferred_tax` (lines 245-260). -/
def validate_deferred_tax (pl_data : PLInput) : List Issue :=
  if pl_data.income_tax_expense.getD 0 = 0 then [Issue.deferredTaxZero] else []

/-- Source `_ai_validate_balance_sheet` (lines 291-311), returning the
pair (appended errors, appended warnings).  An exception from the adapter
is caught and only printed; an invalid verdict appends one error built
from the message and the optional `issues` list; a valid verdict appends
one warning per recommendation when the `recommendations` key is present
and non-empty (Python truthiness at line 306). -/
def ai_validate_balance_sheet (ai : AIService) : List Issue × List Issue :=
  match ai.bsOutcome with
  | AIBSOutcome.raises => ([], [])
  | AIBSOutcome.result is_valid message issues recommendations =>
    if is_valid then
      match recommendations with
      | some recs =>
          if recs.isEmpty then ([], [])
          else ([], recs.map Issue.aiRecommendation)
      | none => ([], [])
    else ([Issue.aiBalance message issues], [])

/-- Source `_ai_validate_notes` (lines 313-337), returning the pair
(appended queries, appended warnings). -/
def ai_validate_notes (ai : AIService) : List Issue × List Issue :=
  match ai.notesOutcome with
  | AINotesOutcome.raises => ([], [])
  | AINotesOutcome.result is_complete missing inadequate_notes =>
    if is_complete then ([], [])
    else
      let qs := if missing.isEmpty then [] else [Issue.aiNotesMissing missing]
      let ws := match inadequate_notes with
        | some ns => ns.map Issue.aiNoteDetail
        | none => []
      (qs, ws)

/-- The result tuple of `validate_all`:
`(is_valid, errors, warnings, queries)` (line 92). -/
structure VResult where
  is_valid : Bool
  errors : List Issue
  warnings : List Issue
  queries : List Issue
deriving DecidableEq

/-- Source `validate_all` (lines 45-92).  The incoming instance state `st`
is the accumulator content left by earlier calls; lines 67-69 re-assign all
three accumulators to `[]` before any check runs, so `st` is discarded.
The checks then run in source order, appending to the fresh accumulators;
the AI checks run only when the adapter is available (`ai = some _`), and
the note check additionally requires `notes_data` to be truthy (a present,
non-empty dict, line 87).  Returns the new instance state together with
the returned tuple; `is_valid` is `errors == []` (line 90). -/
def validate_all (ai : Option AIService) (st : VState) (bs_data : BSInput)
    (pl_data : PLInput) (prior_year_data : PriorYearData) (prior_re : ℚ)
    (directors : List Person) (compiler : Person)
    (tax_consolidation_entity : Option String)
    (contingent_liability_text : Option String)
    (notes_data : Option (List String)) : VState × VResult :=
  let _ := st
  let _ := prior_year_data
  let errors :=
    validate_balance_sheet_balances bs_data
      ++ validate_retained_earnings_rollforward bs_data pl_data prior_re
  let queries :=
    validate_tax_consolidation_disclosure tax_consolidation_entity
      ++ validate_contingent_liability_consistency contingent_liability_text
      ++ validate_director_names directors
      ++ validate_compilation_signatory compiler
  let warnings :=
    validate_cash_accounts bs_data
      ++ validate_related_party_loans
      ++ validate_deferred_tax pl_data
  let aiBS : List Issue × List Issue :=
    match ai with
    | some a => ai_validate_balance_sheet a
    | none => ([], [])
  let aiNotes : List Issue × List Issue :=
    match ai with
    | some a =>
      match notes_data with
      | some nd => if nd.isEmpty then ([], []) else ai_validate_notes a
      | none => ([], [])
    | none => ([], [])
  let errors := errors ++ aiBS.1
  let warnings := warnings ++ aiBS.2 ++ aiNotes.2
  let queries := queries ++ aiNotes.1
  (⟨errors, warnings, queries⟩, ⟨errors.isEmpty, errors, warnings, queries⟩)

/-- Recogniser for balance-check issues. -/
def isBalanceIssue : Issue → Bool
  | Issue.balanceMismatch _ _ _ => true
  | _ => false

/-- Recogniser for rollforward-check issues. -/
def isREIssue : Issue → Bool
  | Issue.reMismatch _ _ _ _ _ => true
  | _ => false

/-- The Fatal issues contributed by the AI balance-sheet call, as appended
at the end of the errors list by `validate_all`. -/
def ai_bs_errors (ai : Option AIService) : List Issue :=
  match ai with
  | some a => (ai_validate_balance_sheet a).1
  | none => []

/-! ## Excel processor (`.history/excel_processor_20251124025654.py`)

A spreadsheet row is an ordered list of cells; the first cell is the label
column.  A pandas cell is a number, a NaN/None (for which `pd.notna` is
false), or a string.  Keyword matching converts every cell with
`row.astype(str)` and tests `row_str.str.contains(kw, case=False).any()`;
a numeric cell stringifies to a sign/digit rendering and a NaN to `"nan"`,
neither of which can contain any of the alphabetic category keywords, so
the exact numeric formatting is immaterial to matching. -/

/-- A spreadsheet cell as the extractor sees it. -/
inductive Cell where
  | num (v : ℚ)
  | nanCell
  | strCell (s : String)
deriving DecidableEq

/-- The `astype(str)` rendering of a cell used for keyword matching. -/
def cellChars : Cell → List Char
  | Cell.num v => (toString v.num).data
  | Cell.nanCell => "nan".data
  | Cell.strCell s => s.data

/-- Model of `row.astype(str).str.contains(kw, case=False).any()`:
does any cell of the row contain the (lower-case) keyword,
case-insensitively? -/
def rowContainsCI (row : List Cell) (kw : String) : Bool :=
  row.any (fun c => charsContain (lowerChars (cellChars c)) kw.data)

/-- Digit character test. -/
def isDigitChar (c : Char) : Bool := '0' ≤ c && c ≤ '9'

/-- Numeric value of a digit list, most significant first. -/
def digitsVal (ds : List Char) : Nat :=
  ds.foldl (fun a c => a * 10 + (c.toNat - '0'.toNat)) 0

/-- Python `str.strip` whitespace (ASCII part; the sources only produce
ASCII whitespace). -/
def isSpaceChar (c : Char) : Bool :=
  c = ' ' || c = '\t' || c = '\n' || c = '\r' || c = '\x0b' || c = '\x0c'

/-- Strip leading and trailing whitespace. -/
def trimChars (s : List Char) : List Char :=
  ((s.dropWhile isSpaceChar).reverse.dropWhile isSpaceChar).reverse

/-- Consume an optional leading sign, returning (isNegative, rest). -/
def parseSign : List Char → Bool × List Char
  | '-' :: rest => (true, rest)
  | '+' :: rest => (false, rest)
  | s => (false, s)

/-- Model of Python `float(s)` on a stripped token, restricted to plain
decimal notation with an optional exponent:
`[+-]? (digits [. digits?] | . digits) ([eE] [+-]? digits)?`.
Python additionally accepts `inf`/`infinity` (not representable in `ℚ`;
the sources never feed it such tokens) and underscores between digits;
both are treated as non-numeric here.  `nan` never reaches this parser:
the caller skips it beforehand. -/
def parseDecimal (s : List Char) : Option ℚ :=
  let (neg, s1) := parseSign s
  let intDigits := s1.takeWhile isDigitChar
  let r1 := s1.dropWhile isDigitChar
  let (fracDigits, r2) :=
    match r1 with
    | '.' :: rest => (rest.takeWhile isDigitChar, rest.dropWhile isDigitChar)
    | _ => ([], r1)
  if intDigits.isEmpty && fracDigits.isEmpty then none
  else
    let mag : ℚ :=
      if fracDigits.isEmpty then (digitsVal intDigits : ℚ)
      else (digitsVal intDigits : ℚ) + (digitsVal fracDigits : ℚ) / 10 ^ fracDigits.length
    let signed : ℚ → ℚ := fun m => if neg then -m else m
    match r2 with
    | [] => some (signed mag)
    | 'e' :: rest =>
      let (eneg, r3) := parseSign rest
      let expDigits := r3.takeWhile isDigitChar
      if expDigits.isEmpty || !(r3.dropWhile isDigitChar).isEmpty then none
      else some (signed (if eneg then mag / 10 ^ digitsVal expDigits
                         else mag * 10 ^ digitsVal expDigits))
    | 'E' :: rest =>
      let (eneg, r3) := parseSign rest
      let expDigits := r3.takeWhile isDigitChar
      if expDigits.isEmpty || !(r3.dropWhile isDigitChar).isEmpty then none
      else some (signed (if eneg then mag / 10 ^ digitsVal expDigits
                         else mag * 10 ^ digitsVal expDigits))
    | _ => none

/-- The cleaning applied to a string cell at source line 380:
`replace(',','').replace('$','').replace('(','-').replace(')','').strip()`.
All four replacements are single-character and independent. -/
def cleanCell (s : List Char) : List Char :=
  trimChars (s.filterMap fun c =>
    if c = ',' || c = '$' || c = ')' then none
    else some (if c = '(' then '-' else c))

/-- The present-but-not-a-value tokens of source line 381, compared against
the cleaned, lower-cased cell. -/
def skip_tokens : List (List Char) :=
  [['-'], "nil".data, "n/a".data, [], "nan".data]

/-- The numeric value a single cell contributes in
`_extract_numeric_value`: a non-NaN number is taken as is (line 374); a
string is cleaned, skipped if it is one of the `skip_tokens`, and
otherwise parsed as a decimal (lines 376-385); NaN/None cells and
non-parsing strings contribute nothing. -/
def cellNumValue : Cell → Option ℚ
  | Cell.num v => some v
  | Cell.nanCell => none
  | Cell.strCell s =>
    let cleaned := cleanCell s.data
    if skip_tokens.contains (lowerChars cleaned) then none
    else parseDecimal cleaned

/-- Source `_extract_numeric_value` (lines 360-386): scan the cells right
to left, excluding the first (label) cell, and return the first value
found; `None` when no cell yields a value. -/
def extract_numeric_value (row : List Cell) : Option ℚ :=
  ((row.drop 1).reverse).findSome? cellNumValue

/-- The income-statement line-item map built by `extract_pl_data`; a
`none` field is a key absent from the Python dict. -/
structure PLData where
  revenue : Option ℚ
  cost_of_sales : Option ℚ
  gross_profit : Option ℚ
  other_income : Option ℚ
  distribution_costs : Option ℚ
  administrative_expenses : Option ℚ
  other_expenses : Option ℚ
  profit_before_tax : Option ℚ
  income_tax_expense : Option ℚ
  net_profit_loss : Option ℚ
  ebitda : Option ℚ
deriving DecidableEq

/-- The empty dict `pl_data = {}` of source line 51. -/
def emptyPL : PLData := ⟨none, none, none, none, none, none, none, none, none, none, none⟩

/-- The stand-alone `if` of source lines 58-62: the EBITDA rule is checked
against every row, independently of the `if/elif` chain below it and with
no `'ebitda' not in pl_data` guard, so a later matching row overwrites. -/
def plStepEbitda (d : PLData) (row : List Cell) : PLData :=
  if rowContainsCI row "ebitda" then
    match extract_numeric_value row with
    | some v => { d with ebitda := some v }
    | none => d
  else d

/-- The `if/elif` chain of source lines 64-130 (revenue through net
profit/loss).  Each condition combines the keyword test with the
`key not in pl_data` guard; the first true condition claims the row, and
its assignment happens only when the row yields a numeric value. -/
def plStepChain (d : PLData) (row : List Cell) : PLData :=
  if rowContainsCI row "revenue" && d.revenue.isNone then
    match extract_numeric_value row with
    | some v => { d with revenue := some v }
    | none => d
  else if (rowContainsCI row "cost of sales" || rowContainsCI row "cost of goods sold")
      && d.cost_of_sales.isNone then
    match extract_numeric_value row with
    | some v => { d with cost_of_sales := some |v| }
    | none => d
  else if rowContainsCI row "gross profit" && d.gross_profit.isNone then
    match extract_numeric_value row with
    | some v => { d with gross_profit := some v }
    | none => d
  else if rowContainsCI row "other income" && d.other_income.isNone then
    match extract_numeric_value row with
    | some v => { d with other_income := some v }
    | none => d
  else if (rowContainsCI row "distribution" && rowContainsCI row "cost")
      && d.distribution_costs.isNone then
    match extract_numeric_value row with
    | some v => { d with distribution_costs := some |v| }
    | none => d
  else if (rowContainsCI row "administrative" && rowContainsCI row "expense")
      && d.administrative_expenses.isNone then
    match extract_numeric_value row with
    | some v => { d with administrative_expenses := some |v| }
    | none => d
  else if (rowContainsCI row "other" && rowContainsCI row "expense"
      && !(rowContainsCI row "income")) && d.other_expenses.isNone then
    match extract_numeric_value row with
    | some v => { d with other_expenses := some |v| }
    | none => d
  else if rowContainsCI row "profit before tax" && d.profit_before_tax.isNone then
    match extract_numeric_value row with
    | some v => { d with profit_before_tax := some v }
    | none => d
  else if rowContainsCI row "income tax" && d.income_tax_expense.isNone then
    match extract_numeric_value row with
    | some v => { d with income_tax_expense := some |v| }
    | none => d
  else if ((rowContainsCI row "net" && rowContainsCI row "profit")
      || (rowContainsCI row "net" && rowContainsCI row "loss"))
      && d.net_profit_loss.isNone then
    match extract_numeric_value row with
    | some v => { d with net_profit_loss := some v }
    | none => d
  else d

/-- One iteration of the row loop of `extract_pl_data` (lines 55-130):
the EBITDA `if`, then the `if/elif` chain. -/
def plStep (d : PLData) (row : List Cell) : PLData :=
  plStepChain (plStepEbitda d row) row

/-- The extraction loop of `extract_pl_data` over all rows of the resolved
P&L sheet. -/
def extract_pl_rows (rows : List (List Cell)) : PLData :=
  rows.foldl plStep emptyPL

/-- Derivation step 1 (source lines 133-134): gross profit from revenue
and cost of sales, only when absent and both operands present. -/
def derive_gross_profit (d : PLData) : PLData :=
  if d.gross_profit.isNone && d.revenue.isSome && d.cost_of_sales.isSome then
    { d with gross_profit := some (d.revenue.getD 0 - d.cost_of_sales.getD 0) }
  else d

/-- Derivation step 2 (source lines 136-143): profit before tax, only when
absent; absent operands contribute zero via `pl_data.get(key, 0)`. -/
def derive_profit_before_tax (d : PLData) : PLData :=
  if d.profit_before_tax.isNone then
    { d with profit_before_tax := some (d.gross_profit.getD 0 + d.other_income.getD 0
        - d.distribution_costs.getD 0 - d.administrative_expenses.getD 0
        - d.other_expenses.getD 0) }
  else d

/-- Derivation step 3 (source lines 145-146): net profit/loss, only when
absent and profit before tax present. -/
def derive_net_profit_loss (d : PLData) : PLData :=
  if d.net_profit_loss.isNone && d.profit_before_tax.isSome then
    { d with net_profit_loss := some (d.profit_before_tax.getD 0
        - d.income_tax_expense.getD 0) }
  else d

/-- Derivation step 4 (source lines 148-153): EBITDA defaults to profit
before tax, only when absent. -/
def derive_ebitda (d : PLData) : PLData :=
  if d.ebitda.isNone then
    { d with ebitda := some (d.profit_before_tax.getD 0) }
  else d

/-- The derived-value fill of `extract_pl_data` (lines 132-153), applied
in source order. -/
def derive_pl (d : PLData) : PLData :=
  derive_ebitda (derive_net_profit_loss (derive_profit_before_tax (derive_gross_profit d)))

/-- Source `extract_pl_data` (lines 32-158) on the rows of the resolved
P&L sheet: the extraction loop followed by the derived-value fill.
(The sheet-alias resolution and its `ValueError` of lines 40-48 happen
before these rows exist and are not needed by the claims.) -/
def extract_pl_data (rows : List (List Cell)) : PLData :=
  derive_pl (extract_pl_rows rows)

/-- The balance-sheet line-item map during extraction, before the
default-to-zero pass.  Field names are the source dict keys prefixed with
their group (`ca`/`nca`/`cl`/`ncl` for the four `other` keys, `cl`/`ncl`
for the duplicated `provisions` and `related_party_loans` keys). -/
structure BSAcc where
  cash : Option ℚ
  receivables : Option ℚ
  inventories : Option ℚ
  ca_other : Option ℚ
  ppe : Option ℚ
  intangibles : Option ℚ
  nca_other : Option ℚ
  payables : Option ℚ
  cl_provisions : Option ℚ
  cl_related_party_loans : Option ℚ
  cl_other : Option ℚ
  borrowings : Option ℚ
  ncl_provisions : Option ℚ
  ncl_related_party_loans : Option ℚ
  ncl_other : Option ℚ
  share_capital : Option ℚ
  reserves : Option ℚ
  retained_earnings : Option ℚ
deriving DecidableEq

/-- The empty nested dicts of source lines 179-185. -/
def emptyBS : BSAcc :=
  ⟨none, none, none, none, none, none, none, none, none,
   none, none, none, none, none, none, none, none, none⟩

/-- One iteration of the row loop of `extract_bs_data` (lines 189-320):
a single `if/elif` chain; `idx` is the `iterrows` index used by the
positional tie-break of the current-provisions rule (line 251).  The two
related-party-loan rules (lines 263-277) carry no `not in` guard. -/
def bsStep (idx : Nat) (d : BSAcc) (row : List Cell) : BSAcc :=
  if (rowContainsCI row "cash" && rowContainsCI row "equivalent") && d.cash.isNone then
    match extract_numeric_value row with
    | some v => { d with cash := some v }
    | none => d
  else if (rowContainsCI row "trade" && rowContainsCI row "receivable")
      && d.receivables.isNone then
    match extract_numeric_value row with
    | some v => { d with receivables := some v }
    | none => d
  else if rowContainsCI row "inventor" && d.inventories.isNone then
    match extract_numeric_value row with
    | some v => { d with inventories := some v }
    | none => d
  else if (rowContainsCI row "other" && rowContainsCI row "current"
      && rowContainsCI row "asset") && d.ca_other.isNone then
    match extract_numeric_value row with
    | some v => { d with ca_other := some v }
    | none => d
  else if (rowContainsCI row "property" && rowContainsCI row "plant") && d.ppe.isNone then
    match extract_numeric_value row with
    | some v => { d with ppe := some v }
    | none => d
  else if rowContainsCI row "intangible" && d.intangibles.isNone then
    match extract_numeric_value row with
    | some v => { d with intangibles := some v }
    | none => d
  else if (rowContainsCI row "other" && rowContainsCI row "non"
      && rowContainsCI row "current" && rowContainsCI row "asset")
      && d.nca_other.isNone then
    match extract_numeric_value row with
    | some v => { d with nca_other := some v }
    | none => d
  else if (rowContainsCI row "trade" && rowContainsCI row "payable")
      && d.payables.isNone then
    match extract_numeric_value row with
    | some v => { d with payables := some v }
    | none => d
  else if (rowContainsCI row "provision"
      && (rowContainsCI row "current" || decide (idx < 15)))
      && d.cl_provisions.isNone then
    match extract_numeric_value row with
    | some v => { d with cl_provisions := some v }
    | none => d
  else if (rowContainsCI row "provision" && rowContainsCI row "non")
      && d.ncl_provisions.isNone then
    match extract_numeric_value row with
    | some v => { d with ncl_provisions := some v }
    | none => d
  else if rowContainsCI row "related" && rowContainsCI row "party"
      && rowContainsCI row "current" then
    match extract_numeric_value row with
    | some v => { d with cl_related_party_loans := some v }
    | none => d
  else if rowContainsCI row "related" && rowContainsCI row "party"
      && rowContainsCI row "non" then
    match extract_numeric_value row with
    | some v => { d with ncl_related_party_loans := some v }
    | none => d
  else if (rowContainsCI row "other" && rowContainsCI row "current"
      && rowContainsCI row "liabilit") && d.cl_other.isNone then
    match extract_numeric_value row with
    | some v => { d with cl_other := some v }
    | none => d
  else if rowContainsCI row "borrowing" && d.borrowings.isNone then
    match extract_numeric_value row with
    | some v => { d with borrowings := some v }
    | none => d
  else if (rowContainsCI row "other" && rowContainsCI row "non"
      && rowContainsCI row "current" && rowContainsCI row "liabilit")
      && d.ncl_other.isNone then
    match extract_numeric_value row with
    | some v => { d with ncl_other := some v }
    | none => d
  else if (rowContainsCI row "share" && rowContainsCI row "capital")
      && d.share_capital.isNone then
    match extract_numeric_value row with
    | some v => { d with share_capital := some v }
    | none => d
  else if rowContainsCI row "reserve" && d.reserves.isNone then
    match extract_numeric_value row with
    | some v => { d with reserves := some v }
    | none => d
  else if (rowContainsCI row "retained" && rowContainsCI row "earning")
      && d.retained_earnings.isNone then
    match extract_numeric_value row with
    | some v => { d with retained_earnings := some v }
    | none => d
  else d

/-- The indexed row loop of `extract_bs_data`. -/
def bs_rows_fold : List (List Cell) → Nat → BSAcc → BSAcc
  | [], _, d => d
  | r :: rs, idx, d => bs_rows_fold rs (idx + 1) (bsStep idx d r)

/-- The dataset returned by `extract_bs_data` after the default-to-zero
pass (lines 322-341) and the total computation (lines 343-353).  Every
key in the default lists becomes a plain value; the two
related-party-loan keys are not in any default list and stay optional. -/
structure BSFinal where
  cash : ℚ
  receivables : ℚ
  inventories : ℚ
  ca_other : ℚ
  ppe : ℚ
  intangibles : ℚ
  nca_other : ℚ
  payables : ℚ
  cl_provisions : ℚ
  cl_related_party_loans : Option ℚ
  cl_other : ℚ
  borrowings : ℚ
  ncl_provisions : ℚ
  ncl_related_party_loans : Option ℚ
  ncl_other : ℚ
  share_capital : ℚ
  reserves : ℚ
  retained_earnings : ℚ
  total_current_assets : ℚ
  total_non_current_assets : ℚ
  total_assets : ℚ
  total_current_liabilities : ℚ
  total_non_current_liabilities : ℚ
  total_liabilities : ℚ
  total_equity : ℚ
  total_liabilities_and_equity : ℚ
deriving DecidableEq

/-- The default-to-zero pass and the total computation of
`extract_bs_data`: each missing key in the default lists becomes `0`, and
each group total is `sum(group.values())` over the keys then present — a
related-party-loan key contributes only when present. -/
def finalize_bs (d : BSAcc) : BSFinal :=
  let cash := d.cash.getD 0
  let receivables := d.receivables.getD 0
  let inventories := d.inventories.getD 0
  let ca_other := d.ca_other.getD 0
  let ppe := d.ppe.getD 0
  let intangibles := d.intangibles.getD 0
  let nca_other := d.nca_other.getD 0
  let payables := d.payables.getD 0
  let cl_provisions := d.cl_provisions.getD 0
  let cl_other := d.cl_other.getD 0
  let borrowings := d.borrowings.getD 0
  let ncl_provisions := d.ncl_provisions.getD 0
  let ncl_other := d.ncl_other.getD 0
  let share_capital := d.share_capital.getD 0
  let reserves := d.reserves.getD 0
  let retained_earnings := d.retained_earnings.getD 0
  let total_current_assets := cash + receivables + inventories + ca_other
  let total_non_current_assets := ppe + intangibles + nca_other
  let total_assets := total_current_assets + total_non_current_assets
  let total_current_liabilities :=
    payables + cl_provisions + cl_other + d.cl_related_party_loans.getD 0
  let total_non_current_liabilities :=
    borrowings + ncl_provisions + ncl_other + d.ncl_related_party_loans.getD 0
  let total_liabilities := total_current_liabilities + total_non_current_liabilities
  let total_equity := share_capital + reserves + retained_earnings
  let total_liabilities_and_equity := total_liabilities + total_equity
  ⟨cash, receivables, inventories, ca_other, ppe, intangibles, nca_other,
   payables, cl_provisions, d.cl_related_party_loans, cl_other,
   borrowings, ncl_provisions, d.ncl_related_party_loans, ncl_other,
   share_capital, reserves, retained_earnings,
   total_current_assets, total_non_current_assets, total_assets,
   total_current_liabilities, total_non_current_liabilities, total_liabilities,
   total_equity, total_liabilities_and_equity⟩

/-- Source `extract_bs_data` (lines 160-358) on the rows of the resolved
balance-sheet sheet: the indexed extraction loop, then defaulting and
totals. -/
def extract_bs_data (rows : List (List Cell)) : BSFinal :=
  finalize_bs (bs_rows_fold rows 0 emptyBS)

/-- Number of categories on which two income-statement maps differ: how
many categories one loop iteration populated (or overwrote). -/
def plPopCount (a b : PLData) : Nat :=
  (if a.revenue = b.revenue then 0 else 1)
  + (if a.cost_of_sales = b.cost_of_sales then 0 else 1)
  + (if a.gross_profit = b.gross_profit then 0 else 1)
  + (if a.other_income = b.other_income then 0 else 1)
  + (if a.distribution_costs = b.distribution_costs then 0 else 1)
  + (if a.administrative_expenses = b.administrative_expenses then 0 else 1)
  + (if a.other_expenses = b.other_expenses then 0 else 1)
  + (if a.profit_before_tax = b.profit_before_tax then 0 else 1)
  + (if a.income_tax_expense = b.income_tax_expense then 0 else 1)
  + (if a.net_profit_loss = b.net_profit_loss then 0 else 1)
  + (if a.ebitda = b.ebitda then 0 else 1)

/-- Number of categories on which two balance-sheet maps differ. -/
def bsPopCount (a b : BSAcc) : Nat :=
  (if a.cash = b.cash then 0 else 1)
  + (if a.receivables = b.receivables then 0 else 1)
  + (if a.inventories = b.inventories then 0 else 1)
  + (if a.ca_other = b.ca_other then 0 else 1)
  + (if a.ppe = b.ppe then 0 else 1)
  + (if a.intangibles = b.intangibles then 0 else 1)
  + (if a.nca_other = b.nca_other then 0 else 1)
  + (if a.payables = b.payables then 0 else 1)
  + (if a.cl_provisions = b.cl_provisions then 0 else 1)
  + (if a.cl_related_party_loans = b.cl_related_party_loans then 0 else 1)
  + (if a.cl_other = b.cl_other then 0 else 1)
  + (if a.borrowings = b.borrowings then 0 else 1)
  + (if a.ncl_provisions = b.ncl_provisions then 0 else 1)
  + (if a.ncl_related_party_loans = b.ncl_related_party_loans then 0 else 1)
  + (if a.ncl_other = b.ncl_other then 0 else 1)
  + (if a.share_capital = b.share_capital then 0 else 1)
  + (if a.reserves = b.reserves then 0 else 1)
  + (if a.retained_earnings = b.retained_earnings then 0 else 1)

/-! ## PDF parser (`pdf_parser.py`)

`extract_income_statement_data` (lines 122-203) iterates over the page
texts; a page is processed when `re.search` finds one of the
income-statement alias literals anywhere in its text (line 138) — a
page-level substring test, not a section state machine.  Within a
processed page every line runs through an `if/elif` keyword chain and the
last currency-shaped token of a matching line is stored (overwriting any
earlier value; no `not in data` guards exist here).
`extract_balance_sheet_data` (lines 205-298) has exactly the same
page-level gating with the balance-sheet aliases; the income-statement
model below is what settles the section-gating claim. -/

/-- Does the first list start with the second (needle given lower-case),
comparing case-insensitively?  Model of an anchored `re.search` with
`re.IGNORECASE`. -/
def lowerStartsWith (hay needle : List Char) : Bool :=
  charsStartWith (lowerChars hay) needle

/-- Case-insensitive containment of a literal in a character list. -/
def lowerContains (hay needle : List Char) : Bool :=
  charsContain (lowerChars hay) needle

/-- Drop everything up to and including the first occurrence of the
needle; `none` when the needle does not occur. -/
def dropAfterSub : List Char → List Char → Option (List Char)
  | [], needle => if needle.isEmpty then some [] else none
  | a :: as, needle =>
    if charsStartWith (a :: as) needle then some ((a :: as).drop needle.length)
    else dropAfterSub as needle

/-- Do the needles occur in the haystack in order (possibly separated)?
Model of a `lit1.*lit2.*lit3` regex search. -/
def charsSeqContain : List Char → List (List Char) → Bool
  | _, [] => true
  | hay, n :: ns =>
    match dropAfterSub hay n with
    | some rest => charsSeqContain rest ns
    | none => false

/-- Split a page text into lines at newline characters, the model of
`page_text.split('\n')`. -/
def splitLines : List Char → List (List Char)
  | [] => [[]]
  | '\n' :: rest => [] :: splitLines rest
  | c :: rest =>
    match splitLines rest with
    | l :: ls => (c :: l) :: ls
    | [] => [[c]]

/-- The page-level gate of line 138:
`re.search(r'Statement of Profit or Loss|Income Statement|Profit and Loss', page_text, re.IGNORECASE)`. -/
def page_has_is_alias (page : List Char) : Bool :=
  lowerContains page "statement of profit or loss".data
  || lowerContains page "income statement".data
  || lowerContains page "profit and loss".data

/-- The line test of source line 144, `re.search(r'^Revenue\s+', line, re.IGNORECASE)`:
the line starts with `revenue` followed by at least one whitespace
character. -/
def line_matches_revenue (line : List Char) : Bool :=
  lowerStartsWith line "revenue".data
  && (match (lowerChars line).drop 7 with
      | c :: _ => isSpaceChar c
      | [] => false)

/-- The line test of source line 198,
`re.search(r'Profit.*Loss.*Period|Net Profit|Net Loss', line, re.IGNORECASE)`. -/
def line_matches_npl (line : List Char) : Bool :=
  charsSeqContain (lowerChars line) ["profit".data, "loss".data, "period".data]
  || lowerContains line "net profit".data
  || lowerContains line "net loss".data

/-- Digit-or-comma class `[\d,]` of the currency patterns. -/
def isDigitComma (c : Char) : Bool := isDigitChar c || c = ','

/-- Scanner for `\$([\d,]+)` with an explicit fuel argument for structural
recursion; every step consumes at least one character, so fuel equal to
the input length (supplied by `dollarRuns`) never runs out. -/
def dollarRunsF : Nat → List Char → List (List Char)
  | _, [] => []
  | 0, _ :: _ => []
  | Nat.succ fuel, '$' :: rest =>
    let run := rest.takeWhile isDigitComma
    if run.isEmpty then dollarRunsF fuel rest
    else run :: dollarRunsF fuel (rest.drop run.length)
  | Nat.succ fuel, _ :: rest => dollarRunsF fuel rest

/-- Maximal digit/comma runs captured by `re.findall(r'\$([\d,]+)', text)`
(source line 484): each run follows a dollar sign; scanning resumes after
the run. -/
def dollarRuns (s : List Char) : List (List Char) := dollarRunsF s.length s

/-- Scanner for `\(([\d,]+)\)` with fuel, as in `dollarRunsF`. -/
def parenRunsF : Nat → List Char → List (List Char)
  | _, [] => []
  | 0, _ :: _ => []
  | Nat.succ fuel, '(' :: rest =>
    let run := rest.takeWhile isDigitComma
    if run.isEmpty then parenRunsF fuel rest
    else if charsStartWith (rest.drop run.length) [')'] then
      run :: parenRunsF fuel ((rest.drop run.length).drop 1)
    else parenRunsF fuel rest
  | Nat.succ fuel, _ :: rest => parenRunsF fuel rest

/-- Maximal digit/comma runs captured by `re.findall(r'\(([\d,]+)\)', text)`
(source line 485): a non-empty run between parentheses; scanning resumes
after the closing parenthesis.  (The character class excludes `)`, so the
regex can only match the maximal run.) -/
def parenRuns (s : List Char) : List (List Char) := parenRunsF s.length s

/-- Scanner for `-?\$?([\d,]+)` with fuel, as in `dollarRunsF`. -/
def anyRunsF : Nat → List Char → List (List Char)
  | _, [] => []
  | 0, _ :: _ => []
  | Nat.succ fuel, c :: rest =>
    if isDigitComma c then
      let run := rest.takeWhile isDigitComma
      (c :: run) :: anyRunsF fuel (rest.drop run.length)
    else anyRunsF fuel rest

/-- Maximal digit/comma runs captured by
`re.findall(r'-?\$?([\d,]+)', text)` (source line 486): the optional sign
and dollar prefixes are outside the capture group, so the captures are
exactly the maximal digit/comma runs of the text. -/
def anyRuns (s : List Char) : List (List Char) := anyRunsF s.length s

/-- Source `_extract_currency_value` (lines 472-503): try the three
patterns in order; for a pattern with matches, take the last match, strip
commas and parse; a parse failure (a run of commas only) falls through to
the next pattern; the value is negated when the text contains `(`
anywhere or its stripped form starts with `-`. -/
def extract_currency_value (text : List Char) : Option ℚ :=
  let neg : Bool := charsContain text ['('] || charsStartWith (trimChars text) ['-']
  let tryRuns : List (List Char) → Option ℚ := fun runs =>
    match runs.getLast? with
    | none => none
    | some run =>
      let ds := run.filter (fun c => c ≠ ',')
      if ds.isEmpty then none
      else some (if neg then -(digitsVal ds : ℚ) else (digitsVal ds : ℚ))
  match tryRuns (dollarRuns text) with
  | some v => some v
  | none =>
    match tryRuns (parenRuns text) with
    | some v => some v
    | none => tryRuns (anyRuns text)

/-- The income-statement line-item map of `extract_income_statement_data`. -/
structure ISData where
  revenue : Option ℚ
  cost_of_sales : Option ℚ
  gross_profit : Option ℚ
  other_income : Option ℚ
  distribution_costs : Option ℚ
  administrative_expenses : Option ℚ
  other_expenses : Option ℚ
  profit_before_tax : Option ℚ
  income_tax_expense : Option ℚ
  net_profit_loss : Option ℚ
deriving DecidableEq

/-- The empty dict `data = {}` of source line 129. -/
def emptyIS : ISData := ⟨none, none, none, none, none, none, none, none, none, none⟩

/-- The `if/elif` line chain of `extract_income_statement_data`
(lines 142-201).  No rule carries a `not in data` guard, so a later
matching line overwrites.  `Costs?`/`Expenses?` patterns reduce to their
singular literal. -/
def is_line_step (d : ISData) (line : List Char) : ISData :=
  if line_matches_revenue line then
    match extract_currency_value line with
    | some v => { d with revenue := some v }
    | none => d
  else if lowerContains line "cost of sales".data
      || lowerContains line "cost of goods sold".data then
    match extract_currency_value line with
    | some v => { d with cost_of_sales := some |v| }
    | none => d
  else if lowerContains line "gross profit".data then
    match extract_currency_value line with
    | some v => { d with gross_profit := some v }
    | none => d
  else if lowerContains line "other income".data then
    match extract_currency_value line with
    | some v => { d with other_income := some v }
    | none => d
  else if lowerContains line "distribution cost".data then
    match extract_currency_value line with
    | some v => { d with distribution_costs := some |v| }
    | none => d
  else if lowerContains line "administrative expense".data then
    match extract_currency_value line with
    | some v => { d with administrative_expenses := some |v| }
    | none => d
  else if lowerContains line "other expense".data then
    match extract_currency_value line with
    | some v => { d with other_expenses := some |v| }
    | none => d
  else if lowerContains line "profit before tax".data then
    match extract_currency_value line with
    | some v => { d with profit_before_tax := some v }
    | none => d
  else if lowerContains line "income tax expense".data then
    match extract_currency_value line with
    | some v => { d with income_tax_expense := some |v| }
    | none => d
  else if line_matches_npl line then
    match extract_currency_value line with
    | some v => { d with net_profit_loss := some v }
    | none => d
  else d

/-- Source `extract_income_statement_data` (lines 122-203): every page
whose text contains an income-statement alias anywhere is processed line
by line; other pages are skipped entirely. -/
def extract_income_statement_data (text_content : List (List Char)) : ISData :=
  text_content.foldl
    (fun d page =>
      if page_has_is_alias page then (splitLines page).foldl is_line_step d
      else d)
    emptyIS

/-! ## Theorems -/

/-! ### Helper lemmas for the validator claims -/

lemma filter_isBalance_self (bs : BSInput) :
    (validate_balance_sheet_balances bs).filter isBalanceIssue
      = validate_balance_sheet_balances bs := by
  simp only [validate_balance_sheet_balances]
  split <;> simp [isBalanceIssue]

lemma filter_isBalance_re (bs : BSInput) (pl : PLInput) (pre : ℚ) :
    (validate_retained_earnings_rollforward bs pl pre).filter isBalanceIssue = [] := by
  simp only [validate_retained_earnings_rollforward]
  split <;> simp [isBalanceIssue]

lemma filter_isBalance_ai (a : AIService) :
    ((ai_validate_balance_sheet a).1).filter isBalanceIssue = [] := by
  unfold ai_validate_balance_sheet
  rcases a with ⟨bsO, nO⟩
  cases bsO with
  | raises => simp
  | result is_valid m i r =>
    cases is_valid with
    | false => simp [isBalanceIssue]
    | true => cases r <;> simp [isBalanceIssue] <;> split <;> simp

lemma filter_isRE_self (bs : BSInput) (pl : PLInput) (pre : ℚ) :
    (validate_retained_earnings_rollforward bs pl pre).filter isREIssue
      = validate_retained_earnings_rollforward bs pl pre := by
  simp only [validate_retained_earnings_rollforward]
  split <;> simp [isREIssue]

lemma filter_isRE_bal (bs : BSInput) :
    (validate_balance_sheet_balances bs).filter isREIssue = [] := by
  simp only [validate_balance_sheet_balances]
  split <;> simp [isREIssue]

lemma filter_isRE_ai (a : AIService) :
    ((ai_validate_balance_sheet a).1).filter isREIssue = [] := by
  unfold ai_validate_balance_sheet
  rcases a with ⟨bsO, nO⟩
  cases bsO with
  | raises => simp
  | result is_valid m i r =>
    cases is_valid with
    | false => simp [isREIssue]
    | true => cases r <;> simp [isREIssue] <;> split <;> simp

/-- C1 (amended): for every call of `validate_all`, the balance check
contributes exactly one Fatal issue exactly when
`|total_assets - (total_liabilities + total_equity)| ≥ 1`, and that issue
states both totals and the absolute difference (the source computes
`difference = abs(assets - liabilities_equity)` before formatting, so the
message carries the absolute value, not the signed difference). -/
theorem balance_check_fatal_iff (ai : Option AIService) (st : VState)
    (bs_data : BSInput) (pl_data : PLInput) (prior_year_data : PriorYearData)
    (prior_re : ℚ) (directors : List Person) (compiler : Person)
    (tax cont : Option String) (notes : Option (List String)) :
    ((validate_all ai st bs_data pl_data prior_year_data prior_re directors
        compiler tax cont notes).2.errors.filter isBalanceIssue)
      = if 1 ≤ |bs_data.total_assets.getD 0
            - (bs_data.total_liabilities.getD 0 + bs_data.total_equity.getD 0)| then
          [Issue.balanceMismatch (bs_data.total_assets.getD 0)
            (bs_data.total_liabilities.getD 0 + bs_data.total_equity.getD 0)
            |bs_data.total_assets.getD 0
              - (bs_data.total_liabilities.getD 0 + bs_data.total_equity.getD 0)|]
        else [] := by
  have h : ((validate_all ai st bs_data pl_data prior_year_data prior_re directors
      compiler tax cont notes).2.errors.filter isBalanceIssue)
      = validate_balance_sheet_balances bs_data := by
    cases ai with
    | none =>
      simp [validate_all, List.filter_append, filter_isBalance_self, filter_isBalance_re]
    | some a =>
      simp [validate_all, List.filter_append, filter_isBalance_self, filter_isBalance_re,
        filter_isBalance_ai]
  rw [h]
  rfl

/-- C1 counterexample: with total assets 1,000,000, total liabilities
1,000,000 and total equity 500,000, the single balance-check Fatal issue
reports the difference as 500,000, whereas the signed difference
`total_assets - (total_liabilities + total_equity)` is -500,000 — so the
message does not state the signed difference. -/
theorem balance_check_signed_difference_cex :
    ((validate_all none ⟨[], [], []⟩
        ⟨some 1000000, some 1000000, some 500000, none, none⟩ ⟨none, none⟩
        [] 0 [] ⟨none, none⟩ none none none).2.errors.filter isBalanceIssue)
      = [Issue.balanceMismatch 1000000 1500000 500000]
    ∧ ((1000000 : ℚ) - (1000000 + 500000) = -500000)
    ∧ ((500000 : ℚ) ≠ -500000) := by
  have hb : validate_balance_sheet_balances
      ⟨some 1000000, some 1000000, some 500000, none, none⟩
      = [Issue.balanceMismatch 1000000 1500000 500000] := by
    norm_num [validate_balance_sheet_balances]
  have hr : validate_retained_earnings_rollforward
      ⟨some 1000000, some 1000000, some 500000, none, none⟩ ⟨none, none⟩ 0 = [] := by
    norm_num [validate_retained_earnings_rollforward]
  refine ⟨?_, by norm_num, by norm_num⟩
  simp [validate_all, hb, hr, isBalanceIssue]

/-- C2: for every call of `validate_all`, the rollforward check
contributes exactly one Fatal issue exactly when
`|retained_earnings(current) - (prior_re + net_profit_loss)| ≥ 1` and no
issue otherwise, and that issue states the prior retained earnings, the
net profit, the expected retained earnings, the actual retained earnings
and the (absolute) difference. -/
theorem rollforward_check_fatal_iff (ai : Option AIService) (st : VState)
    (bs_data : BSInput) (pl_data : PLInput) (prior_year_data : PriorYearData)
    (prior_re : ℚ) (directors : List Person) (compiler : Person)
    (tax cont : Option String) (notes : Option (List String)) :
    ((validate_all ai st bs_data pl_data prior_year_data prior_re directors
        compiler tax cont notes).2.errors.filter isREIssue)
      = if 1 ≤ |bs_data.equity_retained_earnings.getD 0
            - (prior_re + pl_data.net_profit_loss.getD 0)| then
          [Issue.reMismatch prior_re (pl_data.net_profit_loss.getD 0)
            (prior_re + pl_data.net_profit_loss.getD 0)
            (bs_data.equity_retained_earnings.getD 0)
            |bs_data.equity_retained_earnings.getD 0
              - (prior_re + pl_data.net_profit_loss.getD 0)|]
        else [] := by
  have h : ((validate_all ai st bs_data pl_data prior_year_data prior_re directors
      compiler tax cont notes).2.errors.filter isREIssue)
      = validate_retained_earnings_rollforward bs_data pl_data prior_re := by
    cases ai with
    | none =>
      simp [validate_all, List.filter_append, filter_isRE_self, filter_isRE_bal]
    | some a =>
      simp [validate_all, List.filter_append, filter_isRE_self, filter_isRE_bal,
        filter_isRE_ai]
  rw [h]
  rfl

/-- C3 (amended): the deterministic checks never read the adapter — the
Fatal issues of any run are exactly the Fatal issues of the AI-disabled
run followed by the errors contributed by the AI balance-sheet call; that
AI contribution is empty when the adapter is absent, when it raises, and
when it returns a valid verdict.  (When the adapter returns an invalid
verdict, `_ai_validate_balance_sheet` appends an AI error, so the Fatal
set can depend on the adapter output; see the counterexample.) -/
theorem ai_fatal_errors_decomposition (ai : Option AIService) (st : VState)
    (bs_data : BSInput) (pl_data : PLInput) (prior_year_data : PriorYearData)
    (prior_re : ℚ) (directors : List Person) (compiler : Person)
    (tax cont : Option String) (notes : Option (List String)) :
    ((validate_all ai st bs_data pl_data prior_year_data prior_re directors
        compiler tax cont notes).2.errors
      = (validate_all none st bs_data pl_data prior_year_data prior_re directors
          compiler tax cont notes).2.errors ++ ai_bs_errors ai)
    ∧ ai_bs_errors none = []
    ∧ (∀ nOut : AINotesOutcome, ai_bs_errors (some ⟨AIBSOutcome.raises, nOut⟩) = [])
    ∧ (∀ (message : String) (issues recommendations : Option (List String))
        (nOut : AINotesOutcome),
        ai_bs_errors
          (some ⟨AIBSOutcome.result true message issues recommendations, nOut⟩) = []) := by
  refine ⟨?_, rfl, fun nOut => rfl, ?_⟩
  · cases ai with
    | none => simp [validate_all, ai_bs_errors]
    | some a => simp [validate_all, ai_bs_errors]
  · intro message issues recommendations nOut
    simp only [ai_bs_errors, ai_validate_balance_sheet, if_pos]
    cases issues <;> cases recommendations <;> simp <;> split <;> simp

/-- C3 counterexample: on a dataset with no deterministic Fatal issue, a
run with the adapter returning an invalid verdict produces a different
(non-empty) Fatal issue list than the AI-disabled run on the same
arguments, so the Fatal issue set is not independent of the adapter. -/
theorem ai_fatal_dependence_cex :
    (validate_all (some ⟨AIBSOutcome.result false "inconsistent" none none,
        AINotesOutcome.raises⟩) ⟨[], [], []⟩
        ⟨none, none, none, none, none⟩ ⟨none, none⟩ [] 0 [] ⟨none, none⟩
        none none none).2.errors
    ≠ (validate_all none ⟨[], [], []⟩
        ⟨none, none, none, none, none⟩ ⟨none, none⟩ [] 0 [] ⟨none, none⟩
        none none none).2.errors := by
  have hb : validate_balance_sheet_balances ⟨none, none, none, none, none⟩ = [] := by
    norm_num [validate_balance_sheet_balances]
  have hr : validate_retained_earnings_rollforward
      ⟨none, none, none, none, none⟩ ⟨none, none⟩ 0 = [] := by
    norm_num [validate_retained_earnings_rollforward]
  simp [validate_all, hb, hr, ai_validate_balance_sheet]

/-- C10: with the AI adapter disabled, `validate_all` is a function of its
arguments alone — the incoming accumulator state (whatever earlier
invocations left in `self.errors` / `self.warnings` / `self.queries`) is
discarded by the reset at entry, so two calls with equal arguments from
any two states return equal results, and calling again from the state a
first call produced returns the same result tuple: no issue from an
earlier invocation appears in a later result. -/
theorem validate_all_reset_deterministic (st st' : VState) (bs_data : BSInput)
    (pl_data : PLInput) (prior_year_data : PriorYearData) (prior_re : ℚ)
    (directors : List Person) (compiler : Person) (tax cont : Option String)
    (notes : Option (List String)) :
    (validate_all none st bs_data pl_data prior_year_data prior_re directors
        compiler tax cont notes
      = validate_all none st' bs_data pl_data prior_year_data prior_re directors
        compiler tax cont notes)
    ∧ (validate_all none
        (validate_all none st bs_data pl_data prior_year_data prior_re directors
          compiler tax cont notes).1
        bs_data pl_data prior_year_data prior_re directors compiler tax cont notes
      = validate_all none st bs_data pl_data prior_year_data prior_re directors
          compiler tax cont notes) :=
  ⟨rfl, rfl⟩

/-- C5: `_extract_numeric_value` returns exactly the value of the
rightmost cell after the label cell that yields a numeric value under the
per-cell rule `cellNumValue` (already a number, or a cleaned string that
is not one of the skip tokens and parses as a decimal) — every cell to
its right yields nothing (skip tokens and non-parsing cells are passed
over and the scan continues leftward) — and it returns `none`, never a
zero, exactly when no cell after the label yields a value. -/
theorem numeric_value_rightmost (row : List Cell) :
    (∀ v : ℚ, extract_numeric_value row = some v ↔
      ∃ l₁ c l₂, row.drop 1 = l₁ ++ c :: l₂ ∧ cellNumValue c = some v ∧
        ∀ x ∈ l₂, cellNumValue x = none)
    ∧ (extract_numeric_value row = none ↔ ∀ c ∈ row.drop 1, cellNumValue c = none) := by
  constructor
  · intro v
    unfold extract_numeric_value
    rw [List.findSome?_eq_some_iff]
    constructor
    · rintro ⟨l₁, a, l₂, h, hfa, hnone⟩
      refine ⟨l₂.reverse, a, l₁.reverse, ?_, hfa, ?_⟩
      · have h2 := congrArg List.reverse h
        simpa [List.reverse_append] using h2
      · intro x hx
        exact hnone x (List.mem_reverse.mp hx)
    · rintro ⟨m₁, c, m₂, h, hfc, hnone⟩
      refine ⟨m₂.reverse, c, m₁.reverse, ?_, hfc, ?_⟩
      · rw [h]; simp [List.reverse_append]
      · intro x hx
        exact hnone x (List.mem_reverse.mp hx)
  · unfold extract_numeric_value
    rw [List.findSome?_eq_none_iff]
    constructor
    · intro h c hc
      exact h c (List.mem_reverse.mpr hc)
    · intro h c hc
      exact h c (List.mem_reverse.mp hc)

/-! ### Helper lemmas for the derivation and extraction claims -/

set_option maxHeartbeats 1000000 in
lemma derive_pl_pbt_isSome (d : PLData) : (derive_pl d).profit_before_tax.isSome = true := by
  rcases d with ⟨rev, cos, gp, oi, dc, ae, oe, pbt, tax, npl, eb⟩
  cases gp <;> cases pbt <;> cases npl <;> cases eb <;> cases rev <;> cases cos <;>
    simp [derive_pl, derive_gross_profit, derive_profit_before_tax,
      derive_net_profit_loss, derive_ebitda]

set_option maxHeartbeats 1000000 in
lemma derive_pl_npl_isSome (d : PLData) : (derive_pl d).net_profit_loss.isSome = true := by
  rcases d with ⟨rev, cos, gp, oi, dc, ae, oe, pbt, tax, npl, eb⟩
  cases gp <;> cases pbt <;> cases npl <;> cases eb <;> cases rev <;> cases cos <;>
    simp [derive_pl, derive_gross_profit, derive_profit_before_tax,
      derive_net_profit_loss, derive_ebitda]

set_option maxHeartbeats 1000000 in
lemma derive_pl_ebitda_isSome (d : PLData) : (derive_pl d).ebitda.isSome = true := by
  rcases d with ⟨rev, cos, gp, oi, dc, ae, oe, pbt, tax, npl, eb⟩
  cases gp <;> cases pbt <;> cases npl <;> cases eb <;> cases rev <;> cases cos <;>
    simp [derive_pl, derive_gross_profit, derive_profit_before_tax,
      derive_net_profit_loss, derive_ebitda]

set_option maxHeartbeats 2000000 in
/-- C8: the derived-value fill of `extract_pl_data` applies, in order:
gross profit from revenue and cost of sales only when absent and both
operands present; profit before tax (from the possibly just-derived gross
profit, with absent operands contributing zero) only when absent — and
hence always present afterwards; net profit/loss from the resulting
profit before tax minus income tax (zero when absent) only when absent;
EBITDA defaulting to the resulting profit before tax only when absent;
every category already present, and every non-derived category, is left
unchanged. -/
theorem derive_pl_characterisation (d : PLData) :
    ((derive_pl d).gross_profit
      = if d.gross_profit.isNone && d.revenue.isSome && d.cost_of_sales.isSome
        then some (d.revenue.getD 0 - d.cost_of_sales.getD 0) else d.gross_profit)
    ∧ ((derive_pl d).profit_before_tax
      = if d.profit_before_tax.isNone
        then some ((derive_pl d).gross_profit.getD 0 + d.other_income.getD 0
          - d.distribution_costs.getD 0 - d.administrative_expenses.getD 0
          - d.other_expenses.getD 0)
        else d.profit_before_tax)
    ∧ ((derive_pl d).profit_before_tax.isSome = true)
    ∧ ((derive_pl d).net_profit_loss
      = if d.net_profit_loss.isNone
        then some ((derive_pl d).profit_before_tax.getD 0 - d.income_tax_expense.getD 0)
        else d.net_profit_loss)
    ∧ ((derive_pl d).ebitda
      = if d.ebitda.isNone then some ((derive_pl d).profit_before_tax.getD 0)
        else d.ebitda)
    ∧ ((derive_pl d).revenue = d.revenue)
    ∧ ((derive_pl d).cost_of_sales = d.cost_of_sales)
    ∧ ((derive_pl d).other_income = d.other_income)
    ∧ ((derive_pl d).distribution_costs = d.distribution_costs)
    ∧ ((derive_pl d).administrative_expenses = d.administrative_expenses)
    ∧ ((derive_pl d).other_expenses = d.other_expenses)
    ∧ ((derive_pl d).income_tax_expense = d.income_tax_expense) := by
  rcases d with ⟨rev, cos, gp, oi, dc, ae, oe, pbt, tax, npl, eb⟩
  cases gp <;> cases pbt <;> cases npl <;> cases eb <;> cases rev <;> cases cos <;>
    simp [derive_pl, derive_gross_profit, derive_profit_before_tax,
      derive_net_profit_loss, derive_ebitda]

/-- C4 (amended): `extract_bs_data` sets every still-absent category of
its default lists to zero and then computes each group total by summation
over the group (total assets being the sum of the two asset group totals),
with an absent related-party-loan key contributing nothing; the two
related-party-loan categories are in no default list and can remain
absent.  `extract_pl_data` fills only the three derived categories
unconditionally — profit before tax, net profit/loss and EBITDA are always
present in the returned dataset, while other absent income-statement
categories remain absent (see the counterexample). -/
theorem bs_default_zero_and_totals (rows rows2 : List (List Cell)) :
    ((extract_bs_data rows).cash = (bs_rows_fold rows 0 emptyBS).cash.getD 0)
    ∧ ((extract_bs_data rows).receivables
        = (bs_rows_fold rows 0 emptyBS).receivables.getD 0)
    ∧ ((extract_bs_data rows).inventories
        = (bs_rows_fold rows 0 emptyBS).inventories.getD 0)
    ∧ ((extract_bs_data rows).ca_other = (bs_rows_fold rows 0 emptyBS).ca_other.getD 0)
    ∧ ((extract_bs_data rows).ppe = (bs_rows_fold rows 0 emptyBS).ppe.getD 0)
    ∧ ((extract_bs_data rows).intangibles
        = (bs_rows_fold rows 0 emptyBS).intangibles.getD 0)
    ∧ ((extract_bs_data rows).nca_other
        = (bs_rows_fold rows 0 emptyBS).nca_other.getD 0)
    ∧ ((extract_bs_data rows).payables = (bs_rows_fold rows 0 emptyBS).payables.getD 0)
    ∧ ((extract_bs_data rows).cl_provisions
        = (bs_rows_fold rows 0 emptyBS).cl_provisions.getD 0)
    ∧ ((extract_bs_data rows).cl_other = (bs_rows_fold rows 0 emptyBS).cl_other.getD 0)
    ∧ ((extract_bs_data rows).borrowings
        = (bs_rows_fold rows 0 emptyBS).borrowings.getD 0)
    ∧ ((extract_bs_data rows).ncl_provisions
        = (bs_rows_fold rows 0 emptyBS).ncl_provisions.getD 0)
    ∧ ((extract_bs_data rows).ncl_other
        = (bs_rows_fold rows 0 emptyBS).ncl_other.getD 0)
    ∧ ((extract_bs_data rows).share_capital
        = (bs_rows_fold rows 0 emptyBS).share_capital.getD 0)
    ∧ ((extract_bs_data rows).reserves = (bs_rows_fold rows 0 emptyBS).reserves.getD 0)
    ∧ ((extract_bs_data rows).retained_earnings
        = (bs_rows_fold rows 0 emptyBS).retained_earnings.getD 0)
    ∧ ((extract_bs_data rows).cl_related_party_loans
        = (bs_rows_fold rows 0 emptyBS).cl_related_party_loans)
    ∧ ((extract_bs_data rows).ncl_related_party_loans
        = (bs_rows_fold rows 0 emptyBS).ncl_related_party_loans)
    ∧ ((extract_bs_data rows).total_current_assets
        = (extract_bs_data rows).cash + (extract_bs_data rows).receivables
          + (extract_bs_data rows).inventories + (extract_bs_data rows).ca_other)
    ∧ ((extract_bs_data rows).total_non_current_assets
        = (extract_bs_data rows).ppe + (extract_bs_data rows).intangibles
          + (extract_bs_data rows).nca_other)
    ∧ ((extract_bs_data rows).total_assets
        = (extract_bs_data rows).total_current_assets
          + (extract_bs_data rows).total_non_current_assets)
    ∧ ((extract_bs_data rows).total_current_liabilities
        = (extract_bs_data rows).payables + (extract_bs_data rows).cl_provisions
          + (extract_bs_data rows).cl_other
          + (extract_bs_data rows).cl_related_party_loans.getD 0)
    ∧ ((extract_bs_data rows).total_non_current_liabilities
        = (extract_bs_data rows).borrowings + (extract_bs_data rows).ncl_provisions
          + (extract_bs_data rows).ncl_other
          + (extract_bs_data rows).ncl_related_party_loans.getD 0)
    ∧ ((extract_bs_data rows).total_liabilities
        = (extract_bs_data rows).total_current_liabilities
          + (extract_bs_data rows).total_non_current_liabilities)
    ∧ ((extract_bs_data rows).total_equity
        = (extract_bs_data rows).share_capital + (extract_bs_data rows).reserves
          + (extract_bs_data rows).retained_earnings)
    ∧ ((extract_bs_data rows).total_liabilities_and_equity
        = (extract_bs_data rows).total_liabilities
          + (extract_bs_data rows).total_equity)
    ∧ ((extract_pl_data rows2).profit_before_tax.isSome = true)
    ∧ ((extract_pl_data rows2).net_profit_loss.isSome = true)
    ∧ ((extract_pl_data rows2).ebitda.isSome = true) := by
  refine ⟨rfl, rfl, rfl, rfl, rfl, rfl, rfl, rfl, rfl, rfl, rfl, rfl, rfl, rfl, rfl,
    rfl, rfl, rfl, rfl, rfl, rfl, rfl, rfl, rfl, rfl, rfl,
    derive_pl_pbt_isSome _, derive_pl_npl_isSome _, derive_pl_ebitda_isSome _⟩

/-- C4 counterexample: the income-statement extractor does not set every
still-absent category to zero — on an income-statement sheet with no
matching rows, `revenue` and `gross_profit` are still absent (not zero) in
the returned dataset, and the balance-sheet extractor leaves the
current-related-party-loan category absent as well. -/
theorem default_zero_not_all_categories_cex :
    (extract_pl_data []).revenue = none
    ∧ (extract_pl_data []).gross_profit = none
    ∧ (extract_bs_data []).cl_related_party_loans = none :=
  ⟨rfl, rfl, rfl⟩

/-! ### Helper lemmas for the matching-policy claims -/

set_option maxHeartbeats 2000000 in
lemma plStepChain_popCount (d : PLData) (r : List Cell) :
    plPopCount d (plStepChain d r) ≤ 1 := by
  unfold plStepChain
  cases hE : extract_numeric_value r <;> simp only [hE] <;> split_ifs <;>
    simp [plPopCount] <;> split_ifs <;> simp

lemma plStepEbitda_fields (d : PLData) (r : List Cell) :
    ((plStepEbitda d r).revenue = d.revenue)
    ∧ ((plStepEbitda d r).cost_of_sales = d.cost_of_sales)
    ∧ ((plStepEbitda d r).gross_profit = d.gross_profit)
    ∧ ((plStepEbitda d r).other_income = d.other_income)
    ∧ ((plStepEbitda d r).distribution_costs = d.distribution_costs)
    ∧ ((plStepEbitda d r).administrative_expenses = d.administrative_expenses)
    ∧ ((plStepEbitda d r).other_expenses = d.other_expenses)
    ∧ ((plStepEbitda d r).profit_before_tax = d.profit_before_tax)
    ∧ ((plStepEbitda d r).income_tax_expense = d.income_tax_expense)
    ∧ ((plStepEbitda d r).net_profit_loss = d.net_profit_loss) := by
  unfold plStepEbitda
  split
  · split <;> simp
  · simp

set_option maxHeartbeats 2000000 in
lemma plStepChain_first_match (b : PLData) (r : List Cell) :
    (b.revenue.isSome = true → (plStepChain b r).revenue = b.revenue)
    ∧ (b.cost_of_sales.isSome = true → (plStepChain b r).cost_of_sales = b.cost_of_sales)
    ∧ (b.gross_profit.isSome = true → (plStepChain b r).gross_profit = b.gross_profit)
    ∧ (b.other_income.isSome = true → (plStepChain b r).other_income = b.other_income)
    ∧ (b.distribution_costs.isSome = true
        → (plStepChain b r).distribution_costs = b.distribution_costs)
    ∧ (b.administrative_expenses.isSome = true
        → (plStepChain b r).administrative_expenses = b.administrative_expenses)
    ∧ (b.other_expenses.isSome = true → (plStepChain b r).other_expenses = b.other_expenses)
    ∧ (b.profit_before_tax.isSome = true
        → (plStepChain b r).profit_before_tax = b.profit_before_tax)
    ∧ (b.income_tax_expense.isSome = true
        → (plStepChain b r).income_tax_expense = b.income_tax_expense)
    ∧ (b.net_profit_loss.isSome = true
        → (plStepChain b r).net_profit_loss = b.net_profit_loss) := by
  unfold plStepChain
  cases hE : extract_numeric_value r <;> simp only [hE] <;> split_ifs <;>
    simp_all [Option.isNone_iff_eq_none]

lemma bsPop_upd_cash (s : BSAcc) (v : Option ℚ) :
    bsPopCount s { s with cash := v } ≤ 1 := by
  simp [bsPopCount]
  first
  | omega
  | (split <;> simp)

lemma bsPop_upd_receivables (s : BSAcc) (v : Option ℚ) :
    bsPopCount s { s with receivables := v } ≤ 1 := by
  simp [bsPopCount]
  first
  | omega
  | (split <;> simp)

lemma bsPop_upd_inventories (s : BSAcc) (v : Option ℚ) :
    bsPopCount s { s with inventories := v } ≤ 1 := by
  simp [bsPopCount]
  first
  | omega
  | (split <;> simp)

lemma bsPop_upd_ca_other (s : BSAcc) (v : Option ℚ) :
    bsPopCount s { s with ca_other := v } ≤ 1 := by
  simp [bsPopCount]
  first
  | omega
  | (split <;> simp)

lemma bsPop_upd_ppe (s : BSAcc) (v : Option ℚ) :
    bsPopCount s { s with ppe := v } ≤ 1 := by
  simp [bsPopCount]
  first
  | omega
  | (split <;> simp)

lemma bsPop_upd_intangibles (s : BSAcc) (v : Option ℚ) :
    bsPopCount s { s with intangibles := v } ≤ 1 := by
  simp [bsPopCount]
  first
  | omega
  | (split <;> simp)

lemma bsPop_upd_nca_other (s : BSAcc) (v : Option ℚ) :
    bsPopCount s { s with nca_other := v } ≤ 1 := by
  simp [bsPopCount]
  first
  | omega
  | (split <;> simp)

lemma bsPop_upd_payables (s : BSAcc) (v : Option ℚ) :
    bsPopCount s { s with payables := v } ≤ 1 := by
  simp [bsPopCount]
  first
  | omega
  | (split <;> simp)

lemma bsPop_upd_cl_provisions (s : BSAcc) (v : Option ℚ) :
    bsPopCount s { s with cl_provisions := v } ≤ 1 := by
  simp [bsPopCount]
  first
  | omega
  | (split <;> simp)

lemma bsPop_upd_cl_related_party_loans (s : BSAcc) (v : Option ℚ) :
    bsPopCount s { s with cl_related_party_loans := v } ≤ 1 := by
  simp [bsPopCount]
  first
  | omega
  | (split <;> simp)

lemma bsPop_upd_cl_other (s : BSAcc) (v : Option ℚ) :
    bsPopCount s { s with cl_other := v } ≤ 1 := by
  simp [bsPopCount]
  first
  | omega
  | (split <;> simp)

lemma bsPop_upd_borrowings (s : BSAcc) (v : Option ℚ) :
    bsPopCount s { s with borrowings := v } ≤ 1 := by
  simp [bsPopCount]
  first
  | omega
  | (split <;> simp)

lemma bsPop_upd_ncl_provisions (s : BSAcc) (v : Option ℚ) :
    bsPopCount s { s with ncl_provisions := v } ≤ 1 := by
  simp [bsPopCount]
  first
  | omega
  | (split <;> simp)

lemma bsPop_upd_ncl_related_party_loans (s : BSAcc) (v : Option ℚ) :
    bsPopCount s { s with ncl_related_party_loans := v } ≤ 1 := by
  simp [bsPopCount]
  first
  | omega
  | (split <;> simp)

lemma bsPop_upd_ncl_other (s : BSAcc) (v : Option ℚ) :
    bsPopCount s { s with ncl_other := v } ≤ 1 := by
  simp [bsPopCount]
  first
  | omega
  | (split <;> simp)

lemma bsPop_upd_share_capital (s : BSAcc) (v : Option ℚ) :
    bsPopCount s { s with share_capital := v } ≤ 1 := by
  simp [bsPopCount]
  first
  | omega
  | (split <;> simp)

lemma bsPop_upd_reserves (s : BSAcc) (v : Option ℚ) :
    bsPopCount s { s with reserves := v } ≤ 1 := by
  simp [bsPopCount]
  first
  | omega
  | (split <;> simp)

lemma bsPop_upd_retained_earnings (s : BSAcc) (v : Option ℚ) :
    bsPopCount s { s with retained_earnings := v } ≤ 1 := by
  simp [bsPopCount]
  first
  | omega
  | (split <;> simp)

lemma bsPop_refl (s : BSAcc) : bsPopCount s s = 0 := by
  simp [bsPopCount]

set_option maxHeartbeats 4000000 in
lemma bsStep_popCount (i : Nat) (s : BSAcc) (r : List Cell) :
    bsPopCount s (bsStep i s r) ≤ 1 := by
  unfold bsStep
  cases hE : extract_numeric_value r with
  | none =>
    simp only [hE, ite_self]
    simp [bsPop_refl]
  | some v =>
    simp only [hE]
    by_cases h0 : ((rowContainsCI r "cash" && rowContainsCI r "equivalent") && s.cash.isNone) = true
    · rw [if_pos h0]
      exact bsPop_upd_cash s (some v)
    rw [if_neg h0]
    by_cases h1 : ((rowContainsCI r "trade" && rowContainsCI r "receivable") && s.receivables.isNone) = true
    · rw [if_pos h1]
      exact bsPop_upd_receivables s (some v)
    rw [if_neg h1]
    by_cases h2 : (rowContainsCI r "inventor" && s.inventories.isNone) = true
    · rw [if_pos h2]
      exact bsPop_upd_inventories s (some v)
    rw [if_neg h2]
    by_cases h3 : ((rowContainsCI r "other" && rowContainsCI r "current" && rowContainsCI r "asset") && s.ca_other.isNone) = true
    · rw [if_pos h3]
      exact bsPop_upd_ca_other s (some v)
    rw [if_neg h3]
    by_cases h4 : ((rowContainsCI r "property" && rowContainsCI r "plant") && s.ppe.isNone) = true
    · rw [if_pos h4]
      exact bsPop_upd_ppe s (some v)
    rw [if_neg h4]
    by_cases h5 : (rowContainsCI r "intangible" && s.intangibles.isNone) = true
    · rw [if_pos h5]
      exact bsPop_upd_intangibles s (some v)
    rw [if_neg h5]
    by_cases h6 : ((rowContainsCI r "other" && rowContainsCI r "non" && rowContainsCI r "current" && rowContainsCI r "asset") && s.nca_other.isNone) = true
    · rw [if_pos h6]
      exact bsPop_upd_nca_other s (some v)
    rw [if_neg h6]
    by_cases h7 : ((rowContainsCI r "trade" && rowContainsCI r "payable") && s.payables.isNone) = true
    · rw [if_pos h7]
      exact bsPop_upd_payables s (some v)
    rw [if_neg h7]
    by_cases h8 : ((rowContainsCI r "provision" && (rowContainsCI r "current" || decide (i < 15))) && s.cl_provisions.isNone) = true
    · rw [if_pos h8]
      exact bsPop_upd_cl_provisions s (some v)
    rw [if_neg h8]
    by_cases h9 : ((rowContainsCI r "provision" && rowContainsCI r "non") && s.ncl_provisions.isNone) = true
    · rw [if_pos h9]
      exact bsPop_upd_ncl_provisions s (some v)
    rw [if_neg h9]
    by_cases h10 : (rowContainsCI r "related" && rowContainsCI r "party" && rowContainsCI r "current") = true
    · rw [if_pos h10]
      exact bsPop_upd_cl_related_party_loans s (some v)
    rw [if_neg h10]
    by_cases h11 : (rowContainsCI r "related" && rowContainsCI r "party" && rowContainsCI r "non") = true
    · rw [if_pos h11]
      exact bsPop_upd_ncl_related_party_loans s (some v)
    rw [if_neg h11]
    by_cases h12 : ((rowContainsCI r "other" && rowContainsCI r "current" && rowContainsCI r "liabilit") && s.cl_other.isNone) = true
    · rw [if_pos h12]
      exact bsPop_upd_cl_other s (some v)
    rw [if_neg h12]
    by_cases h13 : (rowContainsCI r "borrowing" && s.borrowings.isNone) = true
    · rw [if_pos h13]
      exact bsPop_upd_borrowings s (some v)
    rw [if_neg h13]
    by_cases h14 : ((rowContainsCI r "other" && rowContainsCI r "non" && rowContainsCI r "current" && rowContainsCI r "liabilit") && s.ncl_other.isNone) = true
    · rw [if_pos h14]
      exact bsPop_upd_ncl_other s (some v)
    rw [if_neg h14]
    by_cases h15 : ((rowContainsCI r "share" && rowContainsCI r "capital") && s.share_capital.isNone) = true
    · rw [if_pos h15]
      exact bsPop_upd_share_capital s (some v)
    rw [if_neg h15]
    by_cases h16 : (rowContainsCI r "reserve" && s.reserves.isNone) = true
    · rw [if_pos h16]
      exact bsPop_upd_reserves s (some v)
    rw [if_neg h16]
    by_cases h17 : ((rowContainsCI r "retained" && rowContainsCI r "earning") && s.retained_earnings.isNone) = true
    · rw [if_pos h17]
      exact bsPop_upd_retained_earnings s (some v)
    rw [if_neg h17]
    simp [bsPop_refl]

set_option maxHeartbeats 1000000 in
lemma bsStep_pres_cash (i : Nat) (s : BSAcc) (r : List Cell) (h : s.cash.isSome = true) :
    (bsStep i s r).cash = s.cash := by
  obtain ⟨x, hx⟩ := Option.isSome_iff_exists.mp h
  unfold bsStep
  cases hE : extract_numeric_value r <;>
    simp [hE, hx, apply_ite (fun z : BSAcc => z.cash)]

set_option maxHeartbeats 1000000 in
lemma bsStep_pres_receivables (i : Nat) (s : BSAcc) (r : List Cell) (h : s.receivables.isSome = true) :
    (bsStep i s r).receivables = s.receivables := by
  obtain ⟨x, hx⟩ := Option.isSome_iff_exists.mp h
  unfold bsStep
  cases hE : extract_numeric_value r <;>
    simp [hE, hx, apply_ite (fun z : BSAcc => z.receivables)]

set_option maxHeartbeats 1000000 in
lemma bsStep_pres_inventories (i : Nat) (s : BSAcc) (r : List Cell) (h : s.inventories.isSome = true) :
    (bsStep i s r).inventories = s.inventories := by
  obtain ⟨x, hx⟩ := Option.isSome_iff_exists.mp h
  unfold bsStep
  cases hE : extract_numeric_value r <;>
    simp [hE, hx, apply_ite (fun z : BSAcc => z.inventories)]

set_option maxHeartbeats 1000000 in
lemma bsStep_pres_ca_other (i : Nat) (s : BSAcc) (r : List Cell) (h : s.ca_other.isSome = true) :
    (bsStep i s r).ca_other = s.ca_other := by
  obtain ⟨x, hx⟩ := Option.isSome_iff_exists.mp h
  unfold bsStep
  cases hE : extract_numeric_value r <;>
    simp [hE, hx, apply_ite (fun z : BSAcc => z.ca_other)]

set_option maxHeartbeats 1000000 in
lemma bsStep_pres_ppe (i : Nat) (s : BSAcc) (r : List Cell) (h : s.ppe.isSome = true) :
    (bsStep i s r).ppe = s.ppe := by
  obtain ⟨x, hx⟩ := Option.isSome_iff_exists.mp h
  unfold bsStep
  cases hE : extract_numeric_value r <;>
    simp [hE, hx, apply_ite (fun z : BSAcc => z.ppe)]

set_option maxHeartbeats 1000000 in
lemma bsStep_pres_intangibles (i : Nat) (s : BSAcc) (r : List Cell) (h : s.intangibles.isSome = true) :
    (bsStep i s r).intangibles = s.intangibles := by
  obtain ⟨x, hx⟩ := Option.isSome_iff_exists.mp h
  unfold bsStep
  cases hE : extract_numeric_value r <;>
    simp [hE, hx, apply_ite (fun z : BSAcc => z.intangibles)]

set_option maxHeartbeats 1000000 in
lemma bsStep_pres_nca_other (i : Nat) (s : BSAcc) (r : List Cell) (h : s.nca_other.isSome = true) :
    (bsStep i s r).nca_other = s.nca_other := by
  obtain ⟨x, hx⟩ := Option.isSome_iff_exists.mp h
  unfold bsStep
  cases hE : extract_numeric_value r <;>
    simp [hE, hx, apply_ite (fun z : BSAcc => z.nca_other)]

set_option maxHeartbeats 1000000 in
lemma bsStep_pres_payables (i : Nat) (s : BSAcc) (r : List Cell) (h : s.payables.isSome = true) :
    (bsStep i s r).payables = s.payables := by
  obtain ⟨x, hx⟩ := Option.isSome_iff_exists.mp h
  unfold bsStep
  cases hE : extract_numeric_value r <;>
    simp [hE, hx, apply_ite (fun z : BSAcc => z.payables)]

set_option maxHeartbeats 1000000 in
lemma bsStep_pres_cl_provisions (i : Nat) (s : BSAcc) (r : List Cell) (h : s.cl_provisions.isSome = true) :
    (bsStep i s r).cl_provisions = s.cl_provisions := by
  obtain ⟨x, hx⟩ := Option.isSome_iff_exists.mp h
  unfold bsStep
  cases hE : extract_numeric_value r <;>
    simp [hE, hx, apply_ite (fun z : BSAcc => z.cl_provisions)]

set_option maxHeartbeats 1000000 in
lemma bsStep_pres_cl_other (i : Nat) (s : BSAcc) (r : List Cell) (h : s.cl_other.isSome = true) :
    (bsStep i s r).cl_other = s.cl_other := by
  obtain ⟨x, hx⟩ := Option.isSome_iff_exists.mp h
  unfold bsStep
  cases hE : extract_numeric_value r <;>
    simp [hE, hx, apply_ite (fun z : BSAcc => z.cl_other)]

set_option maxHeartbeats 1000000 in
lemma bsStep_pres_borrowings (i : Nat) (s : BSAcc) (r : List Cell) (h : s.borrowings.isSome = true) :
    (bsStep i s r).borrowings = s.borrowings := by
  obtain ⟨x, hx⟩ := Option.isSome_iff_exists.mp h
  unfold bsStep
  cases hE : extract_numeric_value r <;>
    simp [hE, hx, apply_ite (fun z : BSAcc => z.borrowings)]

set_option maxHeartbeats 1000000 in
lemma bsStep_pres_ncl_provisions (i : Nat) (s : BSAcc) (r : List Cell) (h : s.ncl_provisions.isSome = true) :
    (bsStep i s r).ncl_provisions = s.ncl_provisions := by
  obtain ⟨x, hx⟩ := Option.isSome_iff_exists.mp h
  unfold bsStep
  cases hE : extract_numeric_value r <;>
    simp [hE, hx, apply_ite (fun z : BSAcc => z.ncl_provisions)]

set_option maxHeartbeats 1000000 in
lemma bsStep_pres_ncl_other (i : Nat) (s : BSAcc) (r : List Cell) (h : s.ncl_other.isSome = true) :
    (bsStep i s r).ncl_other = s.ncl_other := by
  obtain ⟨x, hx⟩ := Option.isSome_iff_exists.mp h
  unfold bsStep
  cases hE : extract_numeric_value r <;>
    simp [hE, hx, apply_ite (fun z : BSAcc => z.ncl_other)]

set_option maxHeartbeats 1000000 in
lemma bsStep_pres_share_capital (i : Nat) (s : BSAcc) (r : List Cell) (h : s.share_capital.isSome = true) :
    (bsStep i s r).share_capital = s.share_capital := by
  obtain ⟨x, hx⟩ := Option.isSome_iff_exists.mp h
  unfold bsStep
  cases hE : extract_numeric_value r <;>
    simp [hE, hx, apply_ite (fun z : BSAcc => z.share_capital)]

set_option maxHeartbeats 1000000 in
lemma bsStep_pres_reserves (i : Nat) (s : BSAcc) (r : List Cell) (h : s.reserves.isSome = true) :
    (bsStep i s r).reserves = s.reserves := by
  obtain ⟨x, hx⟩ := Option.isSome_iff_exists.mp h
  unfold bsStep
  cases hE : extract_numeric_value r <;>
    simp [hE, hx, apply_ite (fun z : BSAcc => z.reserves)]

set_option maxHeartbeats 1000000 in
lemma bsStep_pres_retained_earnings (i : Nat) (s : BSAcc) (r : List Cell) (h : s.retained_earnings.isSome = true) :
    (bsStep i s r).retained_earnings = s.retained_earnings := by
  obtain ⟨x, hx⟩ := Option.isSome_iff_exists.mp h
  unfold bsStep
  cases hE : extract_numeric_value r <;>
    simp [hE, hx, apply_ite (fun z : BSAcc => z.retained_earnings)]

lemma foldl_option_pres {β : Type} (step : β → List Cell → β) (f : β → Option ℚ)
    (hstep : ∀ d r, (f d).isSome = true → f (step d r) = f d) :
    ∀ (rows : List (List Cell)) (d : β), (f d).isSome = true → f (rows.foldl step d) = f d := by
  intro rows
  induction rows with
  | nil => intro d _; rfl
  | cons r rs ih =>
    intro d h
    have h1 := hstep d r h
    have h2 : (f (step d r)).isSome = true := by rw [h1]; exact h
    calc f ((r :: rs).foldl step d) = f (rs.foldl step (step d r)) := rfl
    _ = f (step d r) := ih _ h2
    _ = f d := h1

lemma bs_fold_pres (f : BSAcc → Option ℚ)
    (hstep : ∀ i s r, (f s).isSome = true → f (bsStep i s r) = f s) :
    ∀ (rows : List (List Cell)) (i : Nat) (s : BSAcc),
      (f s).isSome = true → f (bs_rows_fold rows i s) = f s := by
  intro rows
  induction rows with
  | nil => intro i s _; rfl
  | cons r rs ih =>
    intro i s h
    have h1 := hstep i s r h
    have h2 : (f (bsStep i s r)).isSome = true := by rw [h1]; exact h
    calc f (bs_rows_fold (r :: rs) i s) = f (bs_rows_fold rs (i + 1) (bsStep i s r)) := rfl
    _ = f (bsStep i s r) := ih _ _ h2
    _ = f s := h1


lemma plPop_eb_base (d : PLData) (v : ℚ) :
    plPopCount d { d with ebitda := some v } ≤ 2 := by
  simp [plPopCount]
  first
  | omega
  | (split <;> simp)

lemma plPop_eb_upd_revenue (d : PLData) (v : ℚ) (w : Option ℚ) :
    plPopCount d { d with ebitda := some v, revenue := w } ≤ 2 := by
  simp [plPopCount]
  first
  | omega
  | (split_ifs <;> simp)

lemma plPop_eb_upd_cost_of_sales (d : PLData) (v : ℚ) (w : Option ℚ) :
    plPopCount d { d with ebitda := some v, cost_of_sales := w } ≤ 2 := by
  simp [plPopCount]
  first
  | omega
  | (split_ifs <;> simp)

lemma plPop_eb_upd_gross_profit (d : PLData) (v : ℚ) (w : Option ℚ) :
    plPopCount d { d with ebitda := some v, gross_profit := w } ≤ 2 := by
  simp [plPopCount]
  first
  | omega
  | (split_ifs <;> simp)

lemma plPop_eb_upd_other_income (d : PLData) (v : ℚ) (w : Option ℚ) :
    plPopCount d { d with ebitda := some v, other_income := w } ≤ 2 := by
  simp [plPopCount]
  first
  | omega
  | (split_ifs <;> simp)

lemma plPop_eb_upd_distribution_costs (d : PLData) (v : ℚ) (w : Option ℚ) :
    plPopCount d { d with ebitda := some v, distribution_costs := w } ≤ 2 := by
  simp [plPopCount]
  first
  | omega
  | (split_ifs <;> simp)

lemma plPop_eb_upd_administrative_expenses (d : PLData) (v : ℚ) (w : Option ℚ) :
    plPopCount d { d with ebitda := some v, administrative_expenses := w } ≤ 2 := by
  simp [plPopCount]
  first
  | omega
  | (split_ifs <;> simp)

lemma plPop_eb_upd_other_expenses (d : PLData) (v : ℚ) (w : Option ℚ) :
    plPopCount d { d with ebitda := some v, other_expenses := w } ≤ 2 := by
  simp [plPopCount]
  first
  | omega
  | (split_ifs <;> simp)

lemma plPop_eb_upd_profit_before_tax (d : PLData) (v : ℚ) (w : Option ℚ) :
    plPopCount d { d with ebitda := some v, profit_before_tax := w } ≤ 2 := by
  simp [plPopCount]
  first
  | omega
  | (split_ifs <;> simp)

lemma plPop_eb_upd_income_tax_expense (d : PLData) (v : ℚ) (w : Option ℚ) :
    plPopCount d { d with ebitda := some v, income_tax_expense := w } ≤ 2 := by
  simp [plPopCount]
  first
  | omega
  | (split_ifs <;> simp)

lemma plPop_eb_upd_net_profit_loss (d : PLData) (v : ℚ) (w : Option ℚ) :
    plPopCount d { d with ebitda := some v, net_profit_loss := w } ≤ 2 := by
  simp [plPopCount]
  first
  | omega
  | (split_ifs <;> simp)

set_option maxHeartbeats 2000000 in
lemma plPop_chain_ebitda (d : PLData) (v : ℚ) (r : List Cell) :
    plPopCount d (plStepChain { d with ebitda := some v } r) ≤ 2 := by
  unfold plStepChain
  dsimp only
  cases hE : extract_numeric_value r with
  | none =>
    simp only [hE, ite_self]
    exact plPop_eb_base d v
  | some w =>
    simp only [hE]
    by_cases h0 : (rowContainsCI r "revenue" && d.revenue.isNone) = true
    · rw [if_pos h0]
      exact plPop_eb_upd_revenue d v (some w)
    rw [if_neg h0]
    by_cases h1 : ((rowContainsCI r "cost of sales" || rowContainsCI r "cost of goods sold")
        && d.cost_of_sales.isNone) = true
    · rw [if_pos h1]
      exact plPop_eb_upd_cost_of_sales d v (some |w|)
    rw [if_neg h1]
    by_cases h2 : (rowContainsCI r "gross profit" && d.gross_profit.isNone) = true
    · rw [if_pos h2]
      exact plPop_eb_upd_gross_profit d v (some w)
    rw [if_neg h2]
    by_cases h3 : (rowContainsCI r "other income" && d.other_income.isNone) = true
    · rw [if_pos h3]
      exact plPop_eb_upd_other_income d v (some w)
    rw [if_neg h3]
    by_cases h4 : ((rowContainsCI r "distribution" && rowContainsCI r "cost")
        && d.distribution_costs.isNone) = true
    · rw [if_pos h4]
      exact plPop_eb_upd_distribution_costs d v (some |w|)
    rw [if_neg h4]
    by_cases h5 : ((rowContainsCI r "administrative" && rowContainsCI r "expense")
        && d.administrative_expenses.isNone) = true
    · rw [if_pos h5]
      exact plPop_eb_upd_administrative_expenses d v (some |w|)
    rw [if_neg h5]
    by_cases h6 : ((rowContainsCI r "other" && rowContainsCI r "expense"
        && !(rowContainsCI r "income")) && d.other_expenses.isNone) = true
    · rw [if_pos h6]
      exact plPop_eb_upd_other_expenses d v (some |w|)
    rw [if_neg h6]
    by_cases h7 : (rowContainsCI r "profit before tax" && d.profit_before_tax.isNone) = true
    · rw [if_pos h7]
      exact plPop_eb_upd_profit_before_tax d v (some w)
    rw [if_neg h7]
    by_cases h8 : (rowContainsCI r "income tax" && d.income_tax_expense.isNone) = true
    · rw [if_pos h8]
      exact plPop_eb_upd_income_tax_expense d v (some |w|)
    rw [if_neg h8]
    by_cases h9 : (((rowContainsCI r "net" && rowContainsCI r "profit")
        || (rowContainsCI r "net" && rowContainsCI r "loss"))
        && d.net_profit_loss.isNone) = true
    · rw [if_pos h9]
      exact plPop_eb_upd_net_profit_loss d v (some w)
    rw [if_neg h9]
    exact plPop_eb_base d v

/-- C6 (amended): in the balance-sheet extractor each row populates at
most one category (its rules form a single `if/elif` chain).  In the
income-statement extractor the EBITDA rule is a separate `if` evaluated
before the chain, so a row whose text matches `ebitda` can populate up to
two categories (EBITDA plus the first matching chain rule); a row not
matching `ebitda` populates at most one.  Within the chain, the first
matching rule claims the row and later rules are not tried. -/
theorem row_populates_bounded (d : PLData) (row : List Cell) (idx : Nat) (s : BSAcc)
    (brow : List Cell) :
    plPopCount d (plStep d row) ≤ (if rowContainsCI row "ebitda" then 2 else 1)
    ∧ bsPopCount s (bsStep idx s brow) ≤ 1 := by
  refine ⟨?_, bsStep_popCount idx s brow⟩
  cases hC : rowContainsCI row "ebitda" with
  | false =>
    have hb : plStepEbitda d row = d := by unfold plStepEbitda; simp [hC]
    simp only [hC, Bool.false_eq_true, if_false]
    show plPopCount d (plStepChain (plStepEbitda d row) row) ≤ 1
    rw [hb]
    exact plStepChain_popCount d row
  | true =>
    simp only [hC, if_true]
    show plPopCount d (plStepChain (plStepEbitda d row) row) ≤ 2
    cases hE : extract_numeric_value row with
    | none =>
      have hb : plStepEbitda d row = d := by unfold plStepEbitda; simp [hC, hE]
      rw [hb]
      exact le_trans (plStepChain_popCount d row) (by norm_num)
    | some v =>
      have hb : plStepEbitda d row = { d with ebitda := some v } := by
        unfold plStepEbitda; simp [hC, hE]
      rw [hb]
      exact plPop_chain_ebitda d v row

/-- C6 counterexample: the row `["EBITDA and Revenue", "100"]` populates
two categories in one loop iteration of `extract_pl_data` — `ebitda` and
`revenue` both become 100 — because the EBITDA rule is a stand-alone `if`
evaluated in addition to the `if/elif` chain. -/
theorem one_row_two_categories_cex :
    plPopCount emptyPL
      (plStep emptyPL [Cell.strCell "EBITDA and Revenue", Cell.strCell "100"]) = 2
    ∧ (plStep emptyPL [Cell.strCell "EBITDA and Revenue", Cell.strCell "100"]).ebitda
        = some 100
    ∧ (plStep emptyPL [Cell.strCell "EBITDA and Revenue", Cell.strCell "100"]).revenue
        = some 100 := by
  refine ⟨by decide, by decide, by decide⟩


/-- C7 (amended): first match wins for every guarded category — all
income-statement categories except `ebitda`, and all balance-sheet
categories except the two related-party-loan ones: once such a category
has received a value, no row processed later in the extraction loop
changes it.  (`ebitda` and the related-party-loan rules carry no
`not in` guard, so a later matching row overwrites them; see the
counterexample.) -/
theorem first_match_wins_guarded (rows brows : List (List Cell)) (d : PLData)
    (i : Nat) (s : BSAcc) :
    (d.revenue.isSome = true → (rows.foldl plStep d).revenue = d.revenue)
    ∧ (d.cost_of_sales.isSome = true → (rows.foldl plStep d).cost_of_sales = d.cost_of_sales)
    ∧ (d.gross_profit.isSome = true → (rows.foldl plStep d).gross_profit = d.gross_profit)
    ∧ (d.other_income.isSome = true → (rows.foldl plStep d).other_income = d.other_income)
    ∧ (d.distribution_costs.isSome = true → (rows.foldl plStep d).distribution_costs = d.distribution_costs)
    ∧ (d.administrative_expenses.isSome = true → (rows.foldl plStep d).administrative_expenses = d.administrative_expenses)
    ∧ (d.other_expenses.isSome = true → (rows.foldl plStep d).other_expenses = d.other_expenses)
    ∧ (d.profit_before_tax.isSome = true → (rows.foldl plStep d).profit_before_tax = d.profit_before_tax)
    ∧ (d.income_tax_expense.isSome = true → (rows.foldl plStep d).income_tax_expense = d.income_tax_expense)
    ∧ (d.net_profit_loss.isSome = true → (rows.foldl plStep d).net_profit_loss = d.net_profit_loss)
    ∧ (s.cash.isSome = true → (bs_rows_fold brows i s).cash = s.cash)
    ∧ (s.receivables.isSome = true → (bs_rows_fold brows i s).receivables = s.receivables)
    ∧ (s.inventories.isSome = true → (bs_rows_fold brows i s).inventories = s.inventories)
    ∧ (s.ca_other.isSome = true → (bs_rows_fold brows i s).ca_other = s.ca_other)
    ∧ (s.ppe.isSome = true → (bs_rows_fold brows i s).ppe = s.ppe)
    ∧ (s.intangibles.isSome = true → (bs_rows_fold brows i s).intangibles = s.intangibles)
    ∧ (s.nca_other.isSome = true → (bs_rows_fold brows i s).nca_other = s.nca_other)
    ∧ (s.payables.isSome = true → (bs_rows_fold brows i s).payables = s.payables)
    ∧ (s.cl_provisions.isSome = true → (bs_rows_fold brows i s).cl_provisions = s.cl_provisions)
    ∧ (s.cl_other.isSome = true → (bs_rows_fold brows i s).cl_other = s.cl_other)
    ∧ (s.borrowings.isSome = true → (bs_rows_fold brows i s).borrowings = s.borrowings)
    ∧ (s.ncl_provisions.isSome = true → (bs_rows_fold brows i s).ncl_provisions = s.ncl_provisions)
    ∧ (s.ncl_other.isSome = true → (bs_rows_fold brows i s).ncl_other = s.ncl_other)
    ∧ (s.share_capital.isSome = true → (bs_rows_fold brows i s).share_capital = s.share_capital)
    ∧ (s.reserves.isSome = true → (bs_rows_fold brows i s).reserves = s.reserves)
    ∧ (s.retained_earnings.isSome = true → (bs_rows_fold brows i s).retained_earnings = s.retained_earnings) := by
  refine ⟨?_, ?_, ?_, ?_, ?_, ?_, ?_, ?_, ?_, ?_, ?_, ?_, ?_, ?_, ?_, ?_, ?_, ?_, ?_, ?_, ?_, ?_, ?_, ?_, ?_, ?_⟩
  · exact foldl_option_pres plStep (fun x => x.revenue)
      (fun d r h => by
        have he := (plStepEbitda_fields d r).1
        have h2 : (plStepEbitda d r).revenue.isSome = true := by rw [he]; exact h
        have hc := (plStepChain_first_match (plStepEbitda d r) r).1 h2
        show (plStepChain (plStepEbitda d r) r).revenue = d.revenue
        rw [hc, he])
      rows d
  · exact foldl_option_pres plStep (fun x => x.cost_of_sales)
      (fun d r h => by
        have he := (plStepEbitda_fields d r).2.1
        have h2 : (plStepEbitda d r).cost_of_sales.isSome = true := by rw [he]; exact h
        have hc := (plStepChain_first_match (plStepEbitda d r) r).2.1 h2
        show (plStepChain (plStepEbitda d r) r).cost_of_sales = d.cost_of_sales
        rw [hc, he])
      rows d
  · exact foldl_option_pres plStep (fun x => x.gross_profit)
      (fun d r h => by
        have he := (plStepEbitda_fields d r).2.2.1
        have h2 : (plStepEbitda d r).gross_profit.isSome = true := by rw [he]; exact h
        have hc := (plStepChain_first_match (plStepEbitda d r) r).2.2.1 h2
        show (plStepChain (plStepEbitda d r) r).gross_profit = d.gross_profit
        rw [hc, he])
      rows d
  · exact foldl_option_pres plStep (fun x => x.other_income)
      (fun d r h => by
        have he := (plStepEbitda_fields d r).2.2.2.1
        have h2 : (plStepEbitda d r).other_income.isSome = true := by rw [he]; exact h
        have hc := (plStepChain_first_match (plStepEbitda d r) r).2.2.2.1 h2
        show (plStepChain (plStepEbitda d r) r).other_income = d.other_income
        rw [hc, he])
      rows d
  · exact foldl_option_pres plStep (fun x => x.distribution_costs)
      (fun d r h => by
        have he := (plStepEbitda_fields d r).2.2.2.2.1
        have h2 : (plStepEbitda d r).distribution_costs.isSome = true := by rw [he]; exact h
        have hc := (plStepChain_first_match (plStepEbitda d r) r).2.2.2.2.1 h2
        show (plStepChain (plStepEbitda d r) r).distribution_costs = d.distribution_costs
        rw [hc, he])
      rows d
  · exact foldl_option_pres plStep (fun x => x.administrative_expenses)
      (fun d r h => by
        have he := (plStepEbitda_fields d r).2.2.2.2.2.1
        have h2 : (plStepEbitda d r).administrative_expenses.isSome = true := by rw [he]; exact h
        have hc := (plStepChain_first_match (plStepEbitda d r) r).2.2.2.2.2.1 h2
        show (plStepChain (plStepEbitda d r) r).administrative_expenses = d.administrative_expenses
        rw [hc, he])
      rows d
  · exact foldl_option_pres plStep (fun x => x.other_expenses)
      (fun d r h => by
        have he := (plStepEbitda_fields d r).2.2.2.2.2.2.1
        have h2 : (plStepEbitda d r).other_expenses.isSome = true := by rw [he]; exact h
        have hc := (plStepChain_first_match (plStepEbitda d r) r).2.2.2.2.2.2.1 h2
        show (plStepChain (plStepEbitda d r) r).other_expenses = d.other_expenses
        rw [hc, he])
      rows d
  · exact foldl_option_pres plStep (fun x => x.profit_before_tax)
      (fun d r h => by
        have he := (plStepEbitda_fields d r).2.2.2.2.2.2.2.1
        have h2 : (plStepEbitda d r).profit_before_tax.isSome = true := by rw [he]; exact h
        have hc := (plStepChain_first_match (plStepEbitda d r) r).2.2.2.2.2.2.2.1 h2
        show (plStepChain (plStepEbitda d r) r).profit_before_tax = d.profit_before_tax
        rw [hc, he])
      rows d
  · exact foldl_option_pres plStep (fun x => x.income_tax_expense)
      (fun d r h => by
        have he := (plStepEbitda_fields d r).2.2.2.2.2.2.2.2.1
        have h2 : (plStepEbitda d r).income_tax_expense.isSome = true := by rw [he]; exact h
        have hc := (plStepChain_first_match (plStepEbitda d r) r).2.2.2.2.2.2.2.2.1 h2
        show (plStepChain (plStepEbitda d r) r).income_tax_expense = d.income_tax_expense
        rw [hc, he])
      rows d
  · exact foldl_option_pres plStep (fun x => x.net_profit_loss)
      (fun d r h => by
        have he := (plStepEbitda_fields d r).2.2.2.2.2.2.2.2.2
        have h2 : (plStepEbitda d r).net_profit_loss.isSome = true := by rw [he]; exact h
        have hc := (plStepChain_first_match (plStepEbitda d r) r).2.2.2.2.2.2.2.2.2 h2
        show (plStepChain (plStepEbitda d r) r).net_profit_loss = d.net_profit_loss
        rw [hc, he])
      rows d
  · exact bs_fold_pres (fun x => x.cash) (fun i s r h => bsStep_pres_cash i s r h) brows i s
  · exact bs_fold_pres (fun x => x.receivables) (fun i s r h => bsStep_pres_receivables i s r h) brows i s
  · exact bs_fold_pres (fun x => x.inventories) (fun i s r h => bsStep_pres_inventories i s r h) brows i s
  · exact bs_fold_pres (fun x => x.ca_other) (fun i s r h => bsStep_pres_ca_other i s r h) brows i s
  · exact bs_fold_pres (fun x => x.ppe) (fun i s r h => bsStep_pres_ppe i s r h) brows i s
  · exact bs_fold_pres (fun x => x.intangibles) (fun i s r h => bsStep_pres_intangibles i s r h) brows i s
  · exact bs_fold_pres (fun x => x.nca_other) (fun i s r h => bsStep_pres_nca_other i s r h) brows i s
  · exact bs_fold_pres (fun x => x.payables) (fun i s r h => bsStep_pres_payables i s r h) brows i s
  · exact bs_fold_pres (fun x => x.cl_provisions) (fun i s r h => bsStep_pres_cl_provisions i s r h) brows i s
  · exact bs_fold_pres (fun x => x.cl_other) (fun i s r h => bsStep_pres_cl_other i s r h) brows i s
  · exact bs_fold_pres (fun x => x.borrowings) (fun i s r h => bsStep_pres_borrowings i s r h) brows i s
  · exact bs_fold_pres (fun x => x.ncl_provisions) (fun i s r h => bsStep_pres_ncl_provisions i s r h) brows i s
  · exact bs_fold_pres (fun x => x.ncl_other) (fun i s r h => bsStep_pres_ncl_other i s r h) brows i s
  · exact bs_fold_pres (fun x => x.share_capital) (fun i s r h => bsStep_pres_share_capital i s r h) brows i s
  · exact bs_fold_pres (fun x => x.reserves) (fun i s r h => bsStep_pres_reserves i s r h) brows i s
  · exact bs_fold_pres (fun x => x.retained_earnings) (fun i s r h => bsStep_pres_retained_earnings i s r h) brows i s

theorem first_match_wins_guarded_witness :
    (([[Cell.strCell "Total revenue", Cell.strCell "9"]].foldl plStep
        (⟨some 1, some 1, some 1, some 1, some 1, some 1, some 1, some 1, some 1, some 1, some 1⟩ : PLData)).revenue = some 1)
    ∧ ((bs_rows_fold [[Cell.strCell "Cash and cash equivalents", Cell.strCell "9"]] 0
        (⟨some 1, some 1, some 1, some 1, some 1, some 1, some 1, some 1, some 1, some 1, some 1, some 1, some 1, some 1, some 1, some 1, some 1, some 1⟩ : BSAcc)).cash = some 1) := by
  obtain ⟨h1, h2, h3, h4, h5, h6, h7, h8, h9, h10, hb1, hb2, hb3, hb4, hb5, hb6, hb7, hb8, hb9, hb10, hb11, hb12, hb13, hb14, hb15, hb16⟩ :=
    first_match_wins_guarded [[Cell.strCell "Total revenue", Cell.strCell "9"]]
      [[Cell.strCell "Cash and cash equivalents", Cell.strCell "9"]]
      ⟨some 1, some 1, some 1, some 1, some 1, some 1, some 1, some 1, some 1, some 1, some 1⟩ 0 ⟨some 1, some 1, some 1, some 1, some 1, some 1, some 1, some 1, some 1, some 1, some 1, some 1, some 1, some 1, some 1, some 1, some 1, some 1⟩
  exact ⟨h1 rfl, hb1 rfl⟩


/-- C7 counterexample: `ebitda` is not first-match-wins — after the row
`["EBITDA", "100"]` populates it with 100, the later row
`["EBITDA", "200"]` changes it to 200; likewise the balance-sheet
current-related-party-loan category is overwritten by a later matching
row (10 then 20 gives 20). -/
theorem later_row_overwrites_cex :
    (plStep emptyPL [Cell.strCell "EBITDA", Cell.strCell "100"]).ebitda = some 100
    ∧ (extract_pl_rows [[Cell.strCell "EBITDA", Cell.strCell "100"],
        [Cell.strCell "EBITDA", Cell.strCell "200"]]).ebitda = some 200
    ∧ (bs_rows_fold [[Cell.strCell "Related party loans - current", Cell.strCell "10"]]
        0 emptyBS).cl_related_party_loans = some 10
    ∧ (bs_rows_fold [[Cell.strCell "Related party loans - current", Cell.strCell "10"],
        [Cell.strCell "Related party loans - current", Cell.strCell "20"]]
        0 emptyBS).cl_related_party_loans = some 20 := by
  refine ⟨by decide, by decide, by decide, by decide⟩

/-- C9: the income-statement text extractor gates on a page-level
substring test, not on a section heading — on a single narrative page
that merely mentions "Income Statement" mid-sentence (no income-statement
section or heading exists in the document), the line "Revenue $100" still
populates the `revenue` category with 100, which the specification
forbids ("a category keyword occurring outside its recognized statement
section must not populate the corresponding category"). -/
theorem narrative_page_populates_revenue :
    (extract_income_statement_data
      ["As explained in the Income Statement note, margins improved.\nRevenue $100".data]).revenue
      = some 100 := by
  decide

